import Mathlib

/-!
# identity-vault: the assertion-signing pipeline and the sub-store resolver

A shallow embedding of `service/handlers.go` (`SignHandler`,
`ModelsHandler`), of `datastore/substoremanager.go` (`createSubstore`,
`GetSubstore`, `GetSubstoreFilteredByUser`, `GetSubstoreModel`) and of the
table of `service/response/errors.go`, with their properties proved over it.

Conventions of the embedding

* Go `string` is `String`, Go `int` is `Int`, a Go `[]byte` is `Bytes`
  (a list of byte values); `string(b)` and `[]byte(s)` do not change the
  bytes, so they are the identity here.
* The process-wide `Environ` handle is an explicit record that is passed to
  the handler.  The capabilities whose code is outside this repository's
  `service/handlers.go` (API-key check, assertion codec, model lookup,
  public-key decoder, signing authority) are fields of that record, so
  every theorem holds for every behaviour of them.
* The only persistent state the signing path touches is the signing-log
  table; the handler takes the table and returns the table it leaves behind.
* Every call the handler makes to a collaborator is recorded, in order, in
  the `calls` field of the outcome.  The record is instrumentation: it is
  what makes "the signing authority is not called" a statement.
* Messages written with `logMessage` go to the application log, not to the
  signing log, and are not modelled.
* A table of the database is the list of its rows in the order the queries
  return them; `QueryRow` keeps the first row of a result.  A query is the
  list expression of its SQL text.
-/

namespace IdentityVault

/-! ## Data model -/

/-- A Go byte slice. -/
abbrev Bytes := List Nat

/-- The headers of an assertion, as the map `assertion.Headers()` returns. -/
abbrev Headers := List (String × String)

/-- A registered model (`datastore.Model`); the fields are those the
handlers read: `modelForDisplay` and `SignHandler`. -/
structure Model where
  ID : Int
  BrandID : String
  Name : String
  KeypairID : Int
  Revision : Int
  AuthorityID : String
  KeyID : String
  SealedKey : String
  KeyActive : Bool
deriving DecidableEq, Inhabited

/-- A row of the signing log (`datastore.SigningLog`), with the four fields
`SignHandler` fills in. -/
structure SigningLog where
  Make : String
  Model : String
  SerialNumber : String
  Fingerprint : String
deriving DecidableEq, Inhabited

/-- A decoded assertion (`asserts.Assertion`): its declared type, its
headers, its body and its revision. -/
structure Assertion where
  typeName : String
  headers : Headers
  body : Bytes
  Revision : Int
deriving DecidableEq, Inhabited

/-- The value of `assertion.Header(name)`: the header, or the empty string
when the assertion has no such header. -/
def Assertion.Header (a : Assertion) (name : String) : String :=
  (a.headers.lookup name).getD ""

/-- The name of `asserts.SerialType`. -/
def SerialType : String := "serial"

/-- A decoded device public key, with the fingerprint `Fingerprint()`
returns. -/
structure PublicKey where
  Fingerprint : String
deriving DecidableEq, Inhabited

/-- The JSON response from the API Sign method (`SignResponse`). -/
structure SignResponse where
  Success : Bool
  ErrorCode : String
  ErrorSubcode : String
  ErrorMessage : String
  Signature : Bytes
deriving DecidableEq, Inhabited

/-- The part of an HTTP request `SignHandler` reads: the `api-key` header
and the body.  The body is `none` for a nil body; otherwise it is what
`ioutil.ReadAll` gives: an error or the bytes. -/
structure Request where
  apiKey : String
  Body : Option (Except String Bytes)

/-- A call made to a collaborator, with its arguments. -/
inductive Call where
  | checkAPIKey (key : String)
  | readAll
  | decode (data : Bytes)
  | findModel (brand model : String) (revision : Int)
  | decodePublicKey (key : String)
  | checkForDuplicate (entry : SigningLog)
  | signAssertion (assertType : String) (headers : Headers) (body : Bytes)
      (authorityID keyID sealedKey : String)
  | createSigningLog (entry : SigningLog)
deriving DecidableEq

/-- The collaborators of the signing path (the `Environ` handle).
`checkFault` and `createFault` are the storage failures of the two
signing-log operations: `some err` when the operation fails with `err`. -/
structure Environ where
  checkAPIKey : String → Option String
  Decode : Bytes → Except String Assertion
  FindModel : String → String → Int → Except String Model
  decodePublicKey : String → Except String PublicKey
  SignAssertion : String → Headers → Bytes → String → String → String → Except String Bytes
  checkFault : List SigningLog → SigningLog → Option String
  createFault : List SigningLog → SigningLog → Option String

/-- What a run of `SignHandler` leaves behind: the HTTP status, the JSON
response, the signing log, and the calls made to the collaborators. -/
structure Outcome where
  status : Nat
  response : SignResponse
  log : List SigningLog
  calls : List Call
deriving DecidableEq

/-! ## Signing-log store -/

/-- The key of the replay check: same serial number and same fingerprint. -/
def SigningLog.sameDevice (x e : SigningLog) : Bool :=
  x.SerialNumber == e.SerialNumber && x.Fingerprint == e.Fingerprint

/-- Modelled from the spec: `CheckForDuplicate` of the datastore, which is
not among the sources.  The Duplicate Guard's `exists(serialNumber,
fingerprint)`: whether the signing log holds an entry for the same (serial
number, fingerprint) pair; it has no side effect and fails on a storage
error. -/
def CheckForDuplicate (env : Environ) (log : List SigningLog) (e : SigningLog) :
    Except String Bool :=
  match env.checkFault log e with
  | some err => .error err
  | none => .ok (log.any fun x => x.sameDevice e)

/-- Modelled from the spec: `CreateSigningLog` of the datastore, which is
not among the sources.  The Duplicate Guard's `record`: one entry is
appended to the append-only signing log, or the write fails and the log is
as before. -/
def CreateSigningLog (env : Environ) (log : List SigningLog) (e : SigningLog) :
    Except String (List SigningLog) :=
  match env.createFault log e with
  | some err => .error err
  | none => .ok (log ++ [e])

/-! ## The signing handler -/

def StatusOK : Nat := 200
def StatusBadRequest : Nat := 400
def StatusNotFound : Nat := 404
def StatusInternalServerError : Nat := 500

/-- The response `formatSignResponse` encodes: its arguments, in the order
of the fields of `SignResponse`; a nil signature is the empty string. -/
def formatSignResponse (success : Bool) (errorCode errorSubcode message : String)
    (signature : Bytes) : SignResponse :=
  { Success := success, ErrorCode := errorCode, ErrorSubcode := errorSubcode,
    ErrorMessage := message, Signature := signature }

/-- The API method to sign assertions from the device (`SignHandler`).
The success path writes no status explicitly, so the status is the 200 that
`net/http` sends with the first write. -/
def SignHandler (env : Environ) (log : List SigningLog) (r : Request) : Outcome :=
  -- Check that we have an authorised API key header
  let c1 := [Call.checkAPIKey r.apiKey]
  match env.checkAPIKey r.apiKey with
  | some _ =>
    ⟨StatusBadRequest, formatSignResponse false "error-api-key" "" "Invalid API key used" [], log, c1⟩
  | none =>
  match r.Body with
  | none =>
    ⟨StatusBadRequest, formatSignResponse false "error-nil-data" "" "Uninitialized POST data" [], log, c1⟩
  | some body =>
  -- Read the full request body
  let c2 := c1 ++ [Call.readAll]
  match body with
  | .error err =>
    ⟨StatusBadRequest, formatSignResponse false "error-sign-read" "" err [], log, c2⟩
  | .ok data =>
  if data.length = 0 then
    ⟨StatusBadRequest, formatSignResponse false "error-sign-empty" "" "No data supplied for signing" [], log, c2⟩
  else
  -- Use the snapd assertions module to decode the body and validate
  let c3 := c2 ++ [Call.decode data]
  match env.Decode data with
  | .error err =>
    ⟨StatusBadRequest, formatSignResponse false "error-decode-assertion" "" err [], log, c3⟩
  | .ok assertion =>
  -- Check that we have a serial assertion
  if assertion.typeName ≠ SerialType then
    ⟨StatusBadRequest, formatSignResponse false "error-decode-assertion" "error-invalid-type"
      "The assertion type must be 'serial'" [], log, c3⟩
  else
  -- Validate the model by checking that it exists on the database
  let c4 := c3 ++ [Call.findModel (assertion.Header "brand-id") (assertion.Header "model") assertion.Revision]
  match env.FindModel (assertion.Header "brand-id") (assertion.Header "model") assertion.Revision with
  | .error _ =>
    ⟨StatusNotFound, formatSignResponse false "error-model-not-found" ""
      "Cannot find model with the matching brand, model and revision" [], log, c4⟩
  | .ok model =>
  -- Check that the model has an active keypair
  if !model.KeyActive then
    ⟨StatusBadRequest, formatSignResponse false "error-model-not-active" ""
      "The model is linked with an inactive signing-key" [], log, c4⟩
  else
  -- Get the fingerprint of the assertion device-key
  let c5 := c4 ++ [Call.decodePublicKey (assertion.Header "device-key")]
  match env.decodePublicKey (assertion.Header "device-key") with
  | .error _ =>
    ⟨StatusBadRequest, formatSignResponse false "error-decode-assertion" "error-device-key"
      "The device-key is invalid" [], log, c5⟩
  | .ok publicKey =>
  -- Check that we have not already signed this device
  let signingLog : SigningLog :=
    { Make := assertion.Header "brand-id", Model := assertion.Header "model",
      SerialNumber := assertion.Header "serial", Fingerprint := publicKey.Fingerprint }
  let c6 := c5 ++ [Call.checkForDuplicate signingLog]
  match CheckForDuplicate env log signingLog with
  | .error err =>
    ⟨StatusInternalServerError, formatSignResponse false "error-signing-assertions" "" err [], log, c6⟩
  | .ok duplicateExists =>
  if duplicateExists then
    ⟨StatusBadRequest, formatSignResponse false "error-signing-assertions" "error-duplicate"
      "The serial number and/or device-key have already been used to sign a device" [], log, c6⟩
  else
  -- Sign the assertion with the snapd assertions module
  let c7 := c6 ++ [Call.signAssertion SerialType assertion.headers assertion.body
    model.AuthorityID model.KeyID model.SealedKey]
  match env.SignAssertion SerialType assertion.headers assertion.body
      model.AuthorityID model.KeyID model.SealedKey with
  | .error err =>
    ⟨StatusInternalServerError, formatSignResponse false "error-signing-assertions" "" err [], log, c7⟩
  | .ok signedAssertion =>
  -- Store the serial number and device-key fingerprint in the database
  let c8 := c7 ++ [Call.createSigningLog signingLog]
  match CreateSigningLog env log signingLog with
  | .error err =>
    ⟨StatusInternalServerError, formatSignResponse false "error-signing-assertions" "" err [], log, c8⟩
  | .ok log' =>
  -- Return successful JSON response with the signed text
  ⟨StatusOK, formatSignResponse true "" "" "" signedAssertion, log', c8⟩

/-! ## Vocabulary of the statements about `SignHandler` -/

/-- Whether the call is a call to the signing authority. -/
def Call.isSign : Call → Bool
  | .signAssertion _ _ _ _ _ _ => true
  | _ => false

/-- Whether the call is a write to the signing log. -/
def Call.isCreate : Call → Bool
  | .createSigningLog _ => true
  | _ => false

/-- The signing-log record `SignHandler` builds from the assertion's headers
and the device-key's fingerprint. -/
def signingLogOf (a : Assertion) (pk : PublicKey) : SigningLog :=
  { Make := a.Header "brand-id", Model := a.Header "model",
    SerialNumber := a.Header "serial", Fingerprint := pk.Fingerprint }

/-- The call to the signing authority for an assertion and a model: the
assertion's own headers and body, the model's authority, key and sealed
key. -/
def signCallOf (a : Assertion) (m : Model) : Call :=
  .signAssertion SerialType a.headers a.body m.AuthorityID m.KeyID m.SealedKey

/-- The calls of the stages that precede the duplicate check. -/
def checkCalls (r : Request) (data : Bytes) (a : Assertion) : List Call :=
  [.checkAPIKey r.apiKey, .readAll, .decode data,
   .findModel (a.Header "brand-id") (a.Header "model") a.Revision,
   .decodePublicKey (a.Header "device-key")]

/-- The request passes every check that precedes signing, with the body,
the assertion, the model and the device key the checks produce. -/
structure Checked (env : Environ) (log : List SigningLog) (r : Request)
    (data : Bytes) (a : Assertion) (m : Model) (pk : PublicKey) : Prop where
  apiKey : env.checkAPIKey r.apiKey = none
  body : r.Body = some (.ok data)
  nonEmpty : data ≠ []
  decoded : env.Decode data = .ok a
  isSerial : a.typeName = SerialType
  found : env.FindModel (a.Header "brand-id") (a.Header "model") a.Revision = .ok m
  active : m.KeyActive = true
  key : env.decodePublicKey (a.Header "device-key") = .ok pk
  fresh : CheckForDuplicate env log (signingLogOf a pk) = .ok false

/-- The check of some stage before signing fails: one constructor for each
reason `SignHandler` rejects a request before it calls the signing
authority.  A constructor asks only for what its own check reads. -/
inductive RejectedBeforeSigning (env : Environ) (log : List SigningLog) (r : Request) : Prop where
  | invalidAPIKey (err : String) (h : env.checkAPIKey r.apiKey = some err)
  | nilBody (h : r.Body = none)
  | unreadableBody (err : String) (h : r.Body = some (.error err))
  | emptyBody (h : r.Body = some (.ok []))
  | undecodable (data : Bytes) (err : String) (hb : r.Body = some (.ok data))
      (h : env.Decode data = .error err)
  | wrongType (data : Bytes) (a : Assertion) (hb : r.Body = some (.ok data))
      (hd : env.Decode data = .ok a) (h : a.typeName ≠ SerialType)
  | modelNotFound (data : Bytes) (a : Assertion) (err : String) (hb : r.Body = some (.ok data))
      (hd : env.Decode data = .ok a)
      (h : env.FindModel (a.Header "brand-id") (a.Header "model") a.Revision = .error err)
  | inactiveKey (data : Bytes) (a : Assertion) (m : Model) (hb : r.Body = some (.ok data))
      (hd : env.Decode data = .ok a)
      (hm : env.FindModel (a.Header "brand-id") (a.Header "model") a.Revision = .ok m)
      (h : m.KeyActive = false)
  | invalidDeviceKey (data : Bytes) (a : Assertion) (err : String)
      (hb : r.Body = some (.ok data)) (hd : env.Decode data = .ok a)
      (h : env.decodePublicKey (a.Header "device-key") = .error err)
  | duplicateCheckError (data : Bytes) (a : Assertion) (pk : PublicKey) (err : String)
      (hb : r.Body = some (.ok data)) (hd : env.Decode data = .ok a)
      (hk : env.decodePublicKey (a.Header "device-key") = .ok pk)
      (h : CheckForDuplicate env log (signingLogOf a pk) = .error err)
  | duplicateFound (data : Bytes) (a : Assertion) (pk : PublicKey)
      (hb : r.Body = some (.ok data)) (hd : env.Decode data = .ok a)
      (hk : env.decodePublicKey (a.Header "device-key") = .ok pk)
      (h : CheckForDuplicate env log (signingLogOf a pk) = .ok true)

/-- The signing authority returned a signature during the run: one of the
recorded calls is a call to it that succeeds. -/
def signatureProduced (env : Environ) (out : Outcome) : Bool :=
  out.calls.any fun c =>
    match c with
    | .signAssertion t h b x y z =>
      match env.SignAssertion t h b x y z with
      | .ok _ => true
      | .error _ => false
    | _ => false

/-- The run wrote to the signing log: the log it leaves is not the log it
found. -/
def logEntryWritten (log : List SigningLog) (out : Outcome) : Bool :=
  decide (out.log ≠ log)

/-- A run ends signed and logged, or neither. -/
def SignedAndLoggedOrNeither (env : Environ) (log : List SigningLog) (r : Request) : Prop :=
  (signatureProduced env (SignHandler env log r) = true ∧
      logEntryWritten log (SignHandler env log r) = true) ∨
  (signatureProduced env (SignHandler env log r) = false ∧
      logEntryWritten log (SignHandler env log r) = false)

/-- A replay is answered with the duplicate failure: when the request is
signed successfully against the log, running the handler again with the same
request against the resulting log gives success=false with the subcode
`error-duplicate` and no signature, makes no call to the signing authority
and leaves the log unchanged. -/
def ReplayIsDuplicate (env : Environ) (log : List SigningLog) (r : Request) : Prop :=
  (SignHandler env log r).response.Success = true →
    (SignHandler env (SignHandler env log r).log r).response.Success = false ∧
    (SignHandler env (SignHandler env log r).log r).response.ErrorSubcode = "error-duplicate" ∧
    (SignHandler env (SignHandler env log r).log r).response.Signature = [] ∧
    (∀ c ∈ (SignHandler env (SignHandler env log r).log r).calls, c.isSign = false) ∧
    (SignHandler env (SignHandler env log r).log r).log = (SignHandler env log r).log

/-! ## The sub-store resolver (`datastore/substoremanager.go`) -/

/-- A row of the `substore` table, with the columns of
`createSubstoreTableSQL`. -/
structure SubstoreRow where
  id : Int
  account_id : Int
  from_model_id : Int
  store : String
  serial_number : String
  model_name : String
deriving DecidableEq, Inhabited

/-- The substore details for an account in the local database
(`Substore`). -/
structure Substore where
  ID : Int
  AccountID : Int
  FromModelID : Int
  FromModel : Model
  Store : String
  SerialNumber : String
  ModelName : String
deriving DecidableEq, Inhabited

/-- A row of the `useraccountlink` table, with the columns the queries of
the sub-store manager read. -/
structure UserAccountLink where
  user_id : Int
  account_id : Int
deriving DecidableEq, Inhabited

/-- A row of the `userinfo` table, with the columns the queries of the
sub-store manager read. -/
structure UserInfo where
  id : Int
  username : String
deriving DecidableEq, Inhabited

/-- A row of the `account` table, with the key that `account_id int
references account` of the `substore` table refers to. -/
structure Account where
  id : Int
deriving DecidableEq, Inhabited

/-- The tables of the catalog the resolver reads.  A row of `model` is the
Model record the datastore returns for it. -/
structure DB where
  model : List Model := []
  substore : List SubstoreRow := []
  useraccountlink : List UserAccountLink := []
  userinfo : List UserInfo := []
  account : List Account := []

/-- Modelled from the spec: `getModel` of the datastore, which is not among
the sources.  The Model with the given identifier; an error when the table
has none. -/
def DB.getModel (db : DB) (modelID : Int) : Except String Model :=
  match db.model.find? fun m => m.ID == modelID with
  | some m => .ok m
  | none => .error "sql: no rows in result set"

/-- Modelled from the spec: `FindModel` of the datastore, which is not among
the sources.  The direct Model lookup by (brand, model name) with the
declared revision of the assertion. -/
def DB.FindModel (db : DB) (brandID modelName : String) (revision : Int) : Except String Model :=
  match db.model.find? fun m => m.BrandID == brandID && m.Name == modelName && m.Revision == revision with
  | some m => .ok m
  | none => .error "sql: no rows in result set"

/-- The rows `getSubstoreModelSQL` selects: the `substore` columns of the
join of `substore` with `model` on `m.id = s.from_model_id`, where
`m.brand_id=$1 AND s.model_name=$2 AND s.serial_number=$3`. -/
def DB.getSubstoreModelSQL (db : DB) (brand model serialNumber : String) : List SubstoreRow :=
  ((db.substore.flatMap fun s =>
      (db.model.filter fun m => m.ID == s.from_model_id).map fun m => (s, m)).filter
    fun sm => sm.2.BrandID == brand && sm.1.model_name == model &&
      sm.1.serial_number == serialNumber).map Prod.fst

/-- What `row.Scan` stores in a fresh `Substore{}`: the six columns of the
row; `FromModel` keeps its zero value. -/
def SubstoreRow.scan (row : SubstoreRow) : Substore :=
  { ID := row.id, AccountID := row.account_id, FromModelID := row.from_model_id,
    FromModel := default, Store := row.store, SerialNumber := row.serial_number,
    ModelName := row.model_name }

/-- Fetches a sub-store in the database using the pivoted model name
(`GetSubstoreModel`).  `QueryRow` keeps the first row of the result and `Scan` fails
when there is none. -/
def DB.GetSubstoreModel (db : DB) (brand model serialNumber : String) : Except String Substore :=
  match db.getSubstoreModelSQL brand model serialNumber with
  | [] =>
    .error ("error retrieving database substore (model name " ++ model ++ ", serial " ++
      serialNumber ++ "): sql: no rows in result set")
  | row :: _ =>
    let store := row.scan
    match db.getModel store.FromModelID with
    | .error err =>
      .error ("error retrieving database model " ++ toString store.FromModelID ++ ": " ++ err)
    | .ok fromModel => .ok { store with FromModel := fromModel }

/-- The signing pipeline resolves through the sub-store mapping: whenever
the (brand-id, model, serial) headers of the request match a Substore
record, every call to the signing authority carries the authority, key and
sealed key of that record's originating Model. -/
def SignsThroughSubstore (db : DB) (env : Environ) (log : List SigningLog) (r : Request) : Prop :=
  ∀ data a s, r.Body = some (.ok data) → env.Decode data = .ok a →
    db.GetSubstoreModel (a.Header "brand-id") (a.Header "model") (a.Header "serial") = .ok s →
    ∀ t h b x y z, Call.signAssertion t h b x y z ∈ (SignHandler env log r).calls →
      x = s.FromModel.AuthorityID ∧ y = s.FromModel.KeyID ∧ z = s.FromModel.SealedKey

/-! ## Creating and fetching sub-stores (`datastore/substoremanager.go`) -/

/-- An error of `db.Exec`: a PostgreSQL error (`*pq.Error`) with the name of
its code and its text, or an error of another kind with its text. -/
inductive ExecError where
  | pq (codeName : String) (text : String)
  | other (text : String)
deriving DecidableEq

/-- What the storage contributes to an `INSERT`: a failure that keeps the
statement from completing (`some` error), and the identifier the `serial`
column hands out for the new row. -/
structure ExecContext where
  fault : Option ExecError
  nextID : Int

/-- What an `int` column takes for a value: the value when it is in the
range of a four-byte integer; otherwise the statement fails. -/
def intColumn (n : Int) : Except ExecError Int :=
  if -2147483648 ≤ n ∧ n ≤ 2147483647 then .ok n
  else .error (.pq "numeric_value_out_of_range"
    ("pq: value " ++ toString n ++ " is out of range for type integer"))

/-- What a `varchar(200)` column takes for a value: the value when it has at
most 200 characters; its first 200 characters when the excess is all spaces;
otherwise the statement fails. -/
def varchar200 (s : String) : Except ExecError String :=
  if s.length ≤ 200 then .ok s
  else if (s.data.drop 200).all (fun c => c == ' ') then .ok (String.mk (s.data.take 200))
  else .error (.pq "string_data_right_truncation"
    "pq: value too long for type character varying(200)")

/-- The statement `createSubstoreSQL` on the table of `createSubstoreTableSQL`
under the unique index `substore_idx` on `(account_id, from_model_id, store,
serial_number)`.  In this order: the storage fault if there is one; the
failure of a value that does not fit its column (`int`, `varchar(200)`); a
`unique_violation` when a row with the same four columns exists; a
`foreign_key_violation` when `account_id` is not the key of an account or
`from_model_id` not the key of a model; in each of these cases the table is as
before.  Otherwise the table with the new row added. -/
def DB.execCreateSubstore (db : DB) (x : ExecContext) (accountID fromModelID : Int)
    (store serialNumber modelName : String) : Except ExecError DB :=
  match x.fault with
  | some err => .error err
  | none =>
  match intColumn accountID with
  | .error err => .error err
  | .ok account_id =>
  match intColumn fromModelID with
  | .error err => .error err
  | .ok from_model_id =>
  match varchar200 store with
  | .error err => .error err
  | .ok store =>
  match varchar200 serialNumber with
  | .error err => .error err
  | .ok serial_number =>
  match varchar200 modelName with
  | .error err => .error err
  | .ok model_name =>
    if db.substore.any fun row =>
        row.account_id == account_id && row.from_model_id == from_model_id &&
        row.store == store && row.serial_number == serial_number then
      .error (.pq "unique_violation"
        "pq: duplicate key value violates unique constraint substore_idx")
    else if !(db.account.any fun acc => acc.id == account_id) then
      .error (.pq "foreign_key_violation"
        "pq: insert or update on table substore violates foreign key constraint substore_account_id_fkey")
    else if !(db.model.any fun m => m.ID == from_model_id) then
      .error (.pq "foreign_key_violation"
        "pq: insert or update on table substore violates foreign key constraint substore_from_model_id_fkey")
    else
      .ok { db with substore := db.substore ++
        [{ id := x.nextID, account_id := account_id, from_model_id := from_model_id,
           store := store, serial_number := serial_number, model_name := model_name }] }

/-- The rows `getSubstoreSQL` selects: the rows of `substore` where
`from_model_id=$1 AND serial_number=$2`. -/
def DB.getSubstoreSQL (db : DB) (fromModelID : Int) (serialNumber : String) : List SubstoreRow :=
  db.substore.filter fun s => s.from_model_id == fromModelID && s.serial_number == serialNumber

/-- Fetches a sub-store in the database (`GetSubstore`).  `QueryRow` keeps
the first row of the result and `Scan` fails when there is none. -/
def DB.GetSubstore (db : DB) (fromModelID : Int) (serialNumber : String) : Except String Substore :=
  match db.getSubstoreSQL fromModelID serialNumber with
  | [] =>
    .error ("error retrieving database substore for " ++ serialNumber ++ ", from model " ++
      toString fromModelID ++ ": sql: no rows in result set")
  | row :: _ =>
    let store := row.scan
    match db.getModel store.FromModelID with
    | .error err =>
      .error ("error retrieving database model " ++ toString store.FromModelID ++ ": " ++ err)
    | .ok fromModel => .ok { store with FromModel := fromModel }

/-- The rows `getUserSubstoreSQL` selects: the `substore` columns of the join
of `substore` with `useraccountlink` on `s.account_id = l.account_id` and
with `userinfo` on `l.user_id = u.id`, where
`s.from_model_id=$1 AND s.serial_number=$2 AND u.username=$3`. -/
def DB.getUserSubstoreSQL (db : DB) (fromModelID : Int) (serialNumber username : String) :
    List SubstoreRow :=
  ((db.substore.flatMap fun s =>
      (db.useraccountlink.filter fun l => s.account_id == l.account_id).flatMap fun l =>
        (db.userinfo.filter fun u => l.user_id == u.id).map fun u => (s, l, u)).filter
    fun slu => slu.1.from_model_id == fromModelID && slu.1.serial_number == serialNumber &&
      slu.2.2.username == username).map fun slu => slu.1

/-- Fetches a sub-store in the database for a user
(`GetSubstoreFilteredByUser`). -/
def DB.GetSubstoreFilteredByUser (db : DB) (fromModelID : Int) (serialNumber username : String) :
    Except String Substore :=
  match db.getUserSubstoreSQL fromModelID serialNumber username with
  | [] =>
    .error ("error retrieving database substore for " ++ serialNumber ++ ", from model " ++
      toString fromModelID ++ ": sql: no rows in result set")
  | row :: _ =>
    let store := row.scan
    match db.getModel store.FromModelID with
    | .error err =>
      .error ("error retrieving database model " ++ toString store.FromModelID ++ ": " ++ err)
    | .ok fromModel => .ok { store with FromModel := fromModel }

/-- What `createSubstore` returns, and the database it leaves: the Substore,
the error (`none` for nil) and the tables. -/
structure CreateSubstoreResult where
  store : Substore
  err : Option String
  db : DB

/-- Creates a sub-store in the database (`createSubstore`). -/
def DB.createSubstore (db : DB) (x : ExecContext) (store : Substore) : CreateSubstoreResult :=
  match db.execCreateSubstore x store.AccountID store.FromModelID store.Store store.SerialNumber
      store.ModelName with
  | .error (.pq codeName text) =>
    -- This is a PostgreSQL error...
    if codeName = "unique_violation" then
      -- Output a more readable message
      ⟨store, some ("a sub-store mapping already exists for this from model, serial-number and sub-store (" ++
        toString store.FromModelID ++ ", " ++ store.SerialNumber ++ ", " ++
        store.Store ++ ")"), db⟩
    else
      ⟨store, some ("error creating the database sub-store (from model, serial-number and sub-store (" ++
        toString store.FromModelID ++ ", " ++ store.SerialNumber ++ ", " ++
        store.Store ++ "): " ++ text), db⟩
  | .error (.other text) =>
    ⟨store, some ("error creating the database sub-store (from model, serial-number and sub-store (" ++
      toString store.FromModelID ++ ", " ++ store.SerialNumber ++ ", " ++
      store.Store ++ "): " ++ text), db⟩
  | .ok db' =>
    -- Return the created substore
    match db'.GetSubstore store.FromModelID store.SerialNumber with
    | .error err =>
      ⟨store, some ("error creating the database sub-store (from model, serial-number and sub-store (" ++
        toString store.FromModelID ++ ", " ++ store.SerialNumber ++ ", " ++
        store.Store ++ "): " ++ err), db'⟩
    | .ok substore => ⟨substore, none, db'⟩

/-- A colliding mapping is reported as such: when the new Substore has the
(account, originating model, store, serial number) of an existing row,
`createSubstore` fails with the readable message that names the tuple,
returns its input record and leaves the table unchanged. -/
def DuplicateMappingIsReported (db : DB) (x : ExecContext) (store : Substore) : Prop :=
  (∃ row ∈ db.substore, row.account_id = store.AccountID ∧
      row.from_model_id = store.FromModelID ∧ row.store = store.Store ∧
      row.serial_number = store.SerialNumber) →
    (db.createSubstore x store).err =
      some ("a sub-store mapping already exists for this from model, serial-number and sub-store (" ++
        toString store.FromModelID ++ ", " ++ store.SerialNumber ++ ", " ++ store.Store ++ ")") ∧
    (db.createSubstore x store).store = store ∧
    (db.createSubstore x store).db.substore = db.substore

/-! ## The pipeline as the state machine of the design -/

/-- The stages of the signing pipeline.  `bodyNonEmpty` reads the body and
checks that it is not empty, so it has two failures (unreadable, empty), as
`duplicateCheck` has two (storage error, duplicate found). -/
inductive Stage where
  | apiKey | bodyPresent | bodyNonEmpty | decode | typeSerial | modelResolution | keyActive
  | deviceKey | duplicateCheck | sign | log
deriving DecidableEq

/-- The fixed order of the stages. -/
def stageOrder : List Stage :=
  [.apiKey, .bodyPresent, .bodyNonEmpty, .decode, .typeSerial, .modelResolution, .keyActive,
   .deviceKey, .duplicateCheck, .sign, .log]

/-- What the stages passed so far have produced. -/
structure Progress where
  data : Bytes
  assertion : Assertion
  model : Model
  entry : SigningLog
  signed : Bytes
  log : List SigningLog

/-- The typed failure of a stage: status, code, subcode and message. -/
structure Failure where
  status : Nat
  code : String
  subcode : String
  message : String

/-- The call a stage makes to a collaborator when it is evaluated. -/
def Stage.calls (r : Request) (p : Progress) : Stage → List Call
  | .apiKey => [.checkAPIKey r.apiKey]
  | .bodyPresent => []
  | .bodyNonEmpty => [.readAll]
  | .decode => [.decode p.data]
  | .typeSerial => []
  | .modelResolution =>
    [.findModel (p.assertion.Header "brand-id") (p.assertion.Header "model") p.assertion.Revision]
  | .keyActive => []
  | .deviceKey => [.decodePublicKey (p.assertion.Header "device-key")]
  | .duplicateCheck => [.checkForDuplicate p.entry]
  | .sign =>
    [.signAssertion SerialType p.assertion.headers p.assertion.body p.model.AuthorityID
      p.model.KeyID p.model.SealedKey]
  | .log => [.createSigningLog p.entry]

/-- The check of one stage: the stage either terminates the request with its
failure or advances with what it has produced. -/
def Stage.check (env : Environ) (r : Request) (p : Progress) : Stage → Except Failure Progress
  | .apiKey =>
    match env.checkAPIKey r.apiKey with
    | some _ => .error ⟨StatusBadRequest, "error-api-key", "", "Invalid API key used"⟩
    | none => .ok p
  | .bodyPresent =>
    match r.Body with
    | none => .error ⟨StatusBadRequest, "error-nil-data", "", "Uninitialized POST data"⟩
    | some _ => .ok p
  | .bodyNonEmpty =>
    match r.Body with
    | some (.error err) => .error ⟨StatusBadRequest, "error-sign-read", "", err⟩
    | some (.ok data) =>
      if data.length = 0 then
        .error ⟨StatusBadRequest, "error-sign-empty", "", "No data supplied for signing"⟩
      else .ok { p with data := data }
    | none => .ok p
  | .decode =>
    match env.Decode p.data with
    | .error err => .error ⟨StatusBadRequest, "error-decode-assertion", "", err⟩
    | .ok a => .ok { p with assertion := a }
  | .typeSerial =>
    if p.assertion.typeName ≠ SerialType then
      .error ⟨StatusBadRequest, "error-decode-assertion", "error-invalid-type",
        "The assertion type must be 'serial'"⟩
    else .ok p
  | .modelResolution =>
    match env.FindModel (p.assertion.Header "brand-id") (p.assertion.Header "model")
        p.assertion.Revision with
    | .error _ =>
      .error ⟨StatusNotFound, "error-model-not-found", "",
        "Cannot find model with the matching brand, model and revision"⟩
    | .ok m => .ok { p with model := m }
  | .keyActive =>
    if !p.model.KeyActive then
      .error ⟨StatusBadRequest, "error-model-not-active", "",
        "The model is linked with an inactive signing-key"⟩
    else .ok p
  | .deviceKey =>
    match env.decodePublicKey (p.assertion.Header "device-key") with
    | .error _ =>
      .error ⟨StatusBadRequest, "error-decode-assertion", "error-device-key",
        "The device-key is invalid"⟩
    | .ok pk => .ok { p with entry := signingLogOf p.assertion pk }
  | .duplicateCheck =>
    match CheckForDuplicate env p.log p.entry with
    | .error err => .error ⟨StatusInternalServerError, "error-signing-assertions", "", err⟩
    | .ok true =>
      .error ⟨StatusBadRequest, "error-signing-assertions", "error-duplicate",
        "The serial number and/or device-key have already been used to sign a device"⟩
    | .ok false => .ok p
  | .sign =>
    match env.SignAssertion SerialType p.assertion.headers p.assertion.body p.model.AuthorityID
        p.model.KeyID p.model.SealedKey with
    | .error err => .error ⟨StatusInternalServerError, "error-signing-assertions", "", err⟩
    | .ok signed => .ok { p with signed := signed }
  | .log =>
    match CreateSigningLog env p.log p.entry with
    | .error err => .error ⟨StatusInternalServerError, "error-signing-assertions", "", err⟩
    | .ok log' => .ok { p with log := log' }

/-- A single pass over the stages, strictly in order: the first stage whose
check fails terminates the request with its failure and no later stage is
evaluated; when every stage passes the signed bytes are returned. -/
def runStages (env : Environ) (r : Request) : List Stage → Progress → List Call → Outcome
  | [], p, calls => ⟨StatusOK, formatSignResponse true "" "" "" p.signed, p.log, calls⟩
  | s :: rest, p, calls =>
    match s.check env r p with
    | .error f =>
      ⟨f.status, formatSignResponse false f.code f.subcode f.message [], p.log, calls ++ s.calls r p⟩
    | .ok p' => runStages env r rest p' (calls ++ s.calls r p)

/-- The signing pipeline of the design: the stages in their fixed order,
from a request and a signing log. -/
def pipeline (env : Environ) (log : List SigningLog) (r : Request) : Outcome :=
  runStages env r stageOrder
    { data := [], assertion := default, model := default, entry := default, signed := [],
      log := log } []

/-- The stage a call belongs to. -/
def Call.stage : Call → Stage
  | .checkAPIKey _ => .apiKey
  | .readAll => .bodyNonEmpty
  | .decode _ => .decode
  | .findModel _ _ _ => .modelResolution
  | .decodePublicKey _ => .deviceKey
  | .checkForDuplicate _ => .duplicateCheck
  | .signAssertion _ _ _ _ _ _ => .sign
  | .createSigningLog _ => .log

/-- The stages that call a collaborator, in the fixed order. -/
def callOrder : List Stage :=
  [.apiKey, .bodyNonEmpty, .decode, .modelResolution, .deviceKey, .duplicateCheck, .sign, .log]

/-! ## Causes of failure of a signing request -/

/-- The reasons a signing request fails, one for each failure return of
`SignHandler`. -/
inductive Cause where
  | invalidAPIKey | nilBody | unreadableBody | emptyBody | undecodable | wrongType
  | modelNotFound | inactiveKey | invalidDeviceKey | duplicate
  | duplicateCheckError | signingFailure | logWriteFailure
deriving DecidableEq

/-- Whether the cause lies with the caller: every cause but the storage error
of the duplicate check, the failure of the signing authority and the failure
of the log write. -/
def Cause.clientCaused : Cause → Bool
  | .duplicateCheckError => false
  | .signingFailure => false
  | .logWriteFailure => false
  | _ => true

/-- The request fails for the given cause: the checks before it pass and its
own check fails. -/
inductive FailsFor (env : Environ) (log : List SigningLog) (r : Request) : Cause → Prop where
  | invalidAPIKey (err : String) (h : env.checkAPIKey r.apiKey = some err) :
      FailsFor env log r .invalidAPIKey
  | nilBody (hk : env.checkAPIKey r.apiKey = none) (h : r.Body = none) :
      FailsFor env log r .nilBody
  | unreadableBody (err : String) (hk : env.checkAPIKey r.apiKey = none)
      (h : r.Body = some (.error err)) : FailsFor env log r .unreadableBody
  | emptyBody (hk : env.checkAPIKey r.apiKey = none) (h : r.Body = some (.ok [])) :
      FailsFor env log r .emptyBody
  | undecodable (data : Bytes) (err : String) (hk : env.checkAPIKey r.apiKey = none)
      (hb : r.Body = some (.ok data)) (hn : data ≠ []) (h : env.Decode data = .error err) :
      FailsFor env log r .undecodable
  | wrongType (data : Bytes) (a : Assertion) (hk : env.checkAPIKey r.apiKey = none)
      (hb : r.Body = some (.ok data)) (hn : data ≠ []) (hd : env.Decode data = .ok a)
      (h : a.typeName ≠ SerialType) : FailsFor env log r .wrongType
  | modelNotFound (data : Bytes) (a : Assertion) (err : String)
      (hk : env.checkAPIKey r.apiKey = none) (hb : r.Body = some (.ok data)) (hn : data ≠ [])
      (hd : env.Decode data = .ok a) (ht : a.typeName = SerialType)
      (h : env.FindModel (a.Header "brand-id") (a.Header "model") a.Revision = .error err) :
      FailsFor env log r .modelNotFound
  | inactiveKey (data : Bytes) (a : Assertion) (m : Model)
      (hk : env.checkAPIKey r.apiKey = none) (hb : r.Body = some (.ok data)) (hn : data ≠ [])
      (hd : env.Decode data = .ok a) (ht : a.typeName = SerialType)
      (hm : env.FindModel (a.Header "brand-id") (a.Header "model") a.Revision = .ok m)
      (h : m.KeyActive = false) : FailsFor env log r .inactiveKey
  | invalidDeviceKey (data : Bytes) (a : Assertion) (m : Model) (err : String)
      (hk : env.checkAPIKey r.apiKey = none) (hb : r.Body = some (.ok data)) (hn : data ≠ [])
      (hd : env.Decode data = .ok a) (ht : a.typeName = SerialType)
      (hm : env.FindModel (a.Header "brand-id") (a.Header "model") a.Revision = .ok m)
      (ha : m.KeyActive = true)
      (h : env.decodePublicKey (a.Header "device-key") = .error err) :
      FailsFor env log r .invalidDeviceKey
  | duplicate (data : Bytes) (a : Assertion) (m : Model) (pk : PublicKey)
      (hk : env.checkAPIKey r.apiKey = none) (hb : r.Body = some (.ok data)) (hn : data ≠ [])
      (hd : env.Decode data = .ok a) (ht : a.typeName = SerialType)
      (hm : env.FindModel (a.Header "brand-id") (a.Header "model") a.Revision = .ok m)
      (ha : m.KeyActive = true) (hp : env.decodePublicKey (a.Header "device-key") = .ok pk)
      (h : CheckForDuplicate env log (signingLogOf a pk) = .ok true) :
      FailsFor env log r .duplicate
  | duplicateCheckError (data : Bytes) (a : Assertion) (m : Model) (pk : PublicKey)
      (err : String)
      (hk : env.checkAPIKey r.apiKey = none) (hb : r.Body = some (.ok data)) (hn : data ≠ [])
      (hd : env.Decode data = .ok a) (ht : a.typeName = SerialType)
      (hm : env.FindModel (a.Header "brand-id") (a.Header "model") a.Revision = .ok m)
      (ha : m.KeyActive = true) (hp : env.decodePublicKey (a.Header "device-key") = .ok pk)
      (h : CheckForDuplicate env log (signingLogOf a pk) = .error err) :
      FailsFor env log r .duplicateCheckError
  | signingFailure (data : Bytes) (a : Assertion) (m : Model) (pk : PublicKey) (err : String)
      (hc : Checked env log r data a m pk)
      (h : env.SignAssertion SerialType a.headers a.body m.AuthorityID m.KeyID m.SealedKey
        = .error err) : FailsFor env log r .signingFailure
  | logWriteFailure (data : Bytes) (a : Assertion) (m : Model) (pk : PublicKey)
      (signed : Bytes) (err : String) (hc : Checked env log r data a m pk)
      (hs : env.SignAssertion SerialType a.headers a.body m.AuthorityID m.KeyID m.SealedKey
        = .ok signed)
      (h : CreateSigningLog env log (signingLogOf a pk) = .error err) :
      FailsFor env log r .logWriteFailure

/-- The request fails for a server-side cause with the given error text: the
checks before pass and the duplicate check, the signing authority or the log
write returns the error `err`. -/
inductive FailsWithError (env : Environ) (log : List SigningLog) (r : Request) :
    Cause → String → Prop where
  | duplicateCheckError (data : Bytes) (a : Assertion) (m : Model) (pk : PublicKey)
      (err : String)
      (hk : env.checkAPIKey r.apiKey = none) (hb : r.Body = some (.ok data)) (hn : data ≠ [])
      (hd : env.Decode data = .ok a) (ht : a.typeName = SerialType)
      (hm : env.FindModel (a.Header "brand-id") (a.Header "model") a.Revision = .ok m)
      (ha : m.KeyActive = true) (hp : env.decodePublicKey (a.Header "device-key") = .ok pk)
      (h : CheckForDuplicate env log (signingLogOf a pk) = .error err) :
      FailsWithError env log r .duplicateCheckError err
  | signingFailure (data : Bytes) (a : Assertion) (m : Model) (pk : PublicKey) (err : String)
      (hc : Checked env log r data a m pk)
      (h : env.SignAssertion SerialType a.headers a.body m.AuthorityID m.KeyID m.SealedKey
        = .error err) : FailsWithError env log r .signingFailure err
  | logWriteFailure (data : Bytes) (a : Assertion) (m : Model) (pk : PublicKey)
      (signed : Bytes) (err : String) (hc : Checked env log r data a m pk)
      (hs : env.SignAssertion SerialType a.headers a.body m.AuthorityID m.KeyID m.SealedKey
        = .ok signed)
      (h : CreateSigningLog env log (signingLogOf a pk) = .error err) :
      FailsWithError env log r .logWriteFailure err

/-- The (error code, error subcode) pair of the response of a run. -/
def Outcome.codePair (out : Outcome) : String × String :=
  (out.response.ErrorCode, out.response.ErrorSubcode)

/-- The failure of the log write is typed apart: when one run fails at the
log write, one at the signing authority and one at the storage of the
duplicate check, the (code, subcode) pair of the first differs from those of
the other two. -/
def LoggingFailureIsDistinct (envLog envSign envCheck : Environ) (log : List SigningLog)
    (r : Request) : Prop :=
  FailsFor envLog log r .logWriteFailure → FailsFor envSign log r .signingFailure →
  FailsFor envCheck log r .duplicateCheckError →
  (SignHandler envLog log r).codePair ≠ (SignHandler envSign log r).codePair ∧
  (SignHandler envLog log r).codePair ≠ (SignHandler envCheck log r).codePair

/-! ## Standard error responses (`service/response/errors.go`) -/

/-- A generic JSON error response structure from an API method
(`ErrorResponse`). -/
structure ErrorResponse where
  Success : Bool
  Code : String
  SubCode : String
  Message : String
  StatusCode : Nat
deriving DecidableEq, Inhabited

def ErrorAuth : ErrorResponse :=
  ⟨false, "error-auth", "", "Your user does not have permissions for the Signing Authority", StatusBadRequest⟩

def ErrorAuthDisabled : ErrorResponse :=
  ⟨false, "error-auth", "", "This feature is not enabled for this account", StatusBadRequest⟩

def ErrorInvalidID : ErrorResponse :=
  ⟨false, "invalid-record", "", "Invalid record ID", StatusBadRequest⟩

def ErrorInvalidAPIKey : ErrorResponse :=
  ⟨false, "invalid-api-key", "", "Invalid API key used", StatusBadRequest⟩

def ErrorNilData : ErrorResponse :=
  ⟨false, "nil-data", "", "Uninitialized POST data", StatusBadRequest⟩

def ErrorInvalidData : ErrorResponse :=
  ⟨false, "invalid-data", "", "Invalid data supplied", StatusBadRequest⟩

def ErrorEmptyData : ErrorResponse :=
  ⟨false, "empty-data", "", "No data supplied for signing", StatusBadRequest⟩

def ErrorDecodeJSON : ErrorResponse :=
  ⟨false, "error-decode-json", "", "Error decoding JSON", StatusBadRequest⟩

def ErrorInvalidType : ErrorResponse :=
  ⟨false, "invalid-type", "", "The assertion type must be 'serial'", StatusBadRequest⟩

def ErrorInvalidSecondType : ErrorResponse :=
  ⟨false, "invalid-second-type", "", "The 2nd assertion type must be 'model'", StatusBadRequest⟩

def ErrorInvalidNonce : ErrorResponse :=
  ⟨false, "invalid-nonce", "", "Nonce is invalid or expired", StatusBadRequest⟩

def ErrorInvalidModel : ErrorResponse :=
  ⟨false, "invalid-model", "", "Cannot find model with the matching brand and model", StatusBadRequest⟩

def ErrorInvalidModelID : ErrorResponse :=
  ⟨false, "invalid-model", "", "Cannot find model with the selected ID", StatusBadRequest⟩

def ErrorInvalidModelSubstore : ErrorResponse :=
  ⟨false, "invalid-model", "", "Cannot find a matching model or sub-store model", StatusBadRequest⟩

def ErrorInvalidSubstore : ErrorResponse :=
  ⟨false, "invalid-substore", "", "Cannot find sub-store mapping for the model", StatusBadRequest⟩

def ErrorInactiveModel : ErrorResponse :=
  ⟨false, "invalid-model", "", "The model is linked with an inactive signing-key", StatusBadRequest⟩

def ErrorInvalidAccount : ErrorResponse :=
  ⟨false, "invalid-account", "", "The account cannot be found", StatusBadRequest⟩

def ErrorInvalidAssertion : ErrorResponse :=
  ⟨false, "invalid-assertion", "", "The assertion is invalid", StatusBadRequest⟩

def ErrorInvalidKeypair : ErrorResponse :=
  ⟨false, "invalid-keypair", "", "The keypair is invalid", StatusBadRequest⟩

def ErrorFetchKeypairs : ErrorResponse :=
  ⟨false, "fetch-keypairs", "", "Error fetching the signing-keys", StatusBadRequest⟩

def ErrorFetchKeypair : ErrorResponse :=
  ⟨false, "fetch-keypair", "", "Error fetching the signing-key", StatusBadRequest⟩

def ErrorStoreKeypair : ErrorResponse :=
  ⟨false, "store-keypair", "", "Error string the signing-key", StatusBadRequest⟩

def ErrorEmptySerial : ErrorResponse :=
  ⟨false, "create-assertion", "", "The serial number is missing from both the header and body", StatusBadRequest⟩

def ErrorCreateAssertion : ErrorResponse :=
  ⟨false, "create-assertion", "", "Error converting the serial-request to a serial assertion", StatusBadRequest⟩

def ErrorDecodeAssertion : ErrorResponse :=
  ⟨false, "decode-assertion", "", "Error decoding the assertion", StatusBadRequest⟩

def ErrorCheckAssertion : ErrorResponse :=
  ⟨false, "duplicate-assertion", "", "Error checking the serial-request. Please try again later", StatusBadRequest⟩

def ErrorCreateModelAssertion : ErrorResponse :=
  ⟨false, "create-assertion", "", "Error with the model assertion headers", StatusBadRequest⟩

def ErrorCreateSystemUserAssertion : ErrorResponse :=
  ⟨false, "create-assertion", "", "Error with the system-user assertion", StatusBadRequest⟩

def ErrorDuplicateAssertion : ErrorResponse :=
  ⟨false, "duplicate-assertion", "", "The serial number and/or device-key have already been used to sign a device", StatusBadRequest⟩

def ErrorAccountAssertion : ErrorResponse :=
  ⟨false, "account-assertion", "", "Error retrieving the account assertion from the database", StatusBadRequest⟩

def ErrorSignAssertion : ErrorResponse :=
  ⟨false, "signing-assertion", "", "Error signing the assertion", StatusBadRequest⟩

def ErrorGenerateNonce : ErrorResponse :=
  ⟨false, "generate-nonce", "", "Error generating a nonce. Please try again later", StatusBadRequest⟩

def ErrorInternal : ErrorResponse :=
  ⟨false, "server-error", "", "Internal Server Error", StatusInternalServerError⟩

/-- The standard error messages, each with the name of its variable, in the
order of the source. -/
def standardErrors : List (String × ErrorResponse) :=
  [("ErrorAuth", ErrorAuth),
   ("ErrorAuthDisabled", ErrorAuthDisabled),
   ("ErrorInvalidID", ErrorInvalidID),
   ("ErrorInvalidAPIKey", ErrorInvalidAPIKey),
   ("ErrorNilData", ErrorNilData),
   ("ErrorInvalidData", ErrorInvalidData),
   ("ErrorEmptyData", ErrorEmptyData),
   ("ErrorDecodeJSON", ErrorDecodeJSON),
   ("ErrorInvalidType", ErrorInvalidType),
   ("ErrorInvalidSecondType", ErrorInvalidSecondType),
   ("ErrorInvalidNonce", ErrorInvalidNonce),
   ("ErrorInvalidModel", ErrorInvalidModel),
   ("ErrorInvalidModelID", ErrorInvalidModelID),
   ("ErrorInvalidModelSubstore", ErrorInvalidModelSubstore),
   ("ErrorInvalidSubstore", ErrorInvalidSubstore),
   ("ErrorInactiveModel", ErrorInactiveModel),
   ("ErrorInvalidAccount", ErrorInvalidAccount),
   ("ErrorInvalidAssertion", ErrorInvalidAssertion),
   ("ErrorInvalidKeypair", ErrorInvalidKeypair),
   ("ErrorFetchKeypairs", ErrorFetchKeypairs),
   ("ErrorFetchKeypair", ErrorFetchKeypair),
   ("ErrorStoreKeypair", ErrorStoreKeypair),
   ("ErrorEmptySerial", ErrorEmptySerial),
   ("ErrorCreateAssertion", ErrorCreateAssertion),
   ("ErrorDecodeAssertion", ErrorDecodeAssertion),
   ("ErrorCheckAssertion", ErrorCheckAssertion),
   ("ErrorCreateModelAssertion", ErrorCreateModelAssertion),
   ("ErrorCreateSystemUserAssertion", ErrorCreateSystemUserAssertion),
   ("ErrorDuplicateAssertion", ErrorDuplicateAssertion),
   ("ErrorAccountAssertion", ErrorAccountAssertion),
   ("ErrorSignAssertion", ErrorSignAssertion),
   ("ErrorGenerateNonce", ErrorGenerateNonce),
   ("ErrorInternal", ErrorInternal)]

/-! ## The models list handler (`service/handlers.go`) -/

/-- The JSON version of a model, with the signing key ID
(`ModelSerialize`); `TypeName` is the field `Type`. -/
structure ModelSerialize where
  ID : Int
  BrandID : String
  Name : String
  TypeName : String
  KeypairID : Int
  Revision : Int
  AuthorityID : String
  KeyID : String
  KeyActive : Bool
deriving DecidableEq, Inhabited

/-- The JSON response from the API Models method (`ModelsResponse`). -/
structure ModelsResponse where
  Success : Bool
  ErrorCode : String
  ErrorSubcode : String
  ErrorMessage : String
  Models : List ModelSerialize
deriving DecidableEq, Inhabited

/-- What a run of `ModelsHandler` writes: the content type, the HTTP status
and the JSON response. -/
structure ModelsOutcome where
  contentType : String
  status : Nat
  response : ModelsResponse
deriving DecidableEq

/-- The record `modelForDisplay` builds; the constant `ModelType`, which is
not among the sources, is a parameter. -/
def modelForDisplay (ModelType : String) (model : Model) : ModelSerialize :=
  { ID := model.ID, BrandID := model.BrandID, Name := model.Name, TypeName := ModelType,
    Revision := model.Revision, KeypairID := model.KeypairID, AuthorityID := model.AuthorityID,
    KeyID := model.KeyID, KeyActive := model.KeyActive }

/-- The response `formatModelsResponse` encodes: its arguments, in the order
of the fields of `ModelsResponse`; a nil list of models is the empty list. -/
def formatModelsResponse (success : Bool) (errorCode errorSubcode message : String)
    (models : List ModelSerialize) : ModelsResponse :=
  { Success := success, ErrorCode := errorCode, ErrorSubcode := errorSubcode,
    ErrorMessage := message, Models := models }

/-- The API method to list the models (`ModelsHandler`).  `listModels` is
what `Environ.DB.ListModels()` returns: an error or the models of the
datastore. -/
def ModelsHandler (ModelType : String) (listModels : Except String (List Model)) : ModelsOutcome :=
  let contentType := "application/json; charset=UTF-8"
  let models : List ModelSerialize := []
  match listModels with
  | .error err =>
    ⟨contentType, StatusInternalServerError,
      formatModelsResponse false "error-fetch-models" "" err []⟩
  | .ok dbModels =>
    -- Format the database records for output
    let models := dbModels.foldl (fun models model => models ++ [modelForDisplay ModelType model])
      models
    -- Return successful JSON response with the list of models
    ⟨contentType, StatusOK, formatModelsResponse true "" "" "" models⟩

/-! ## A concrete catalog and environment -/

/-- The model a device is manufactured against. -/
def falcon : Model :=
  { ID := 1, BrandID := "acme", Name := "falcon", KeypairID := 10, Revision := 0,
    AuthorityID := "acme", KeyID := "key-falcon", SealedKey := "sealed-falcon", KeyActive := true }

/-- A model whose own name is also used as a pivot name. -/
def kestrel : Model :=
  { ID := 2, BrandID := "acme", Name := "kestrel", KeypairID := 11, Revision := 0,
    AuthorityID := "acme-retail", KeyID := "key-kestrel", SealedKey := "sealed-kestrel",
    KeyActive := true }

/-- A model whose signing key is inactive. -/
def osprey : Model :=
  { ID := 3, BrandID := "acme", Name := "osprey", KeypairID := 12, Revision := 0,
    AuthorityID := "acme", KeyID := "key-osprey", SealedKey := "sealed-osprey", KeyActive := false }

/-- A catalog with three models and one sub-store mapping: the device
`SN-001` of model `falcon` is sold in the `retail` store of account 7 as a
`kestrel`.  The accounts are 7, 8 and 9; user `alice` is linked to account 7
and user `bob` to account 9. -/
def catalog : DB :=
  { model := [falcon, kestrel, osprey],
    substore := [{ id := 1, account_id := 7, from_model_id := 1, store := "retail",
                   serial_number := "SN-001", model_name := "kestrel" }],
    useraccountlink := [{ user_id := 1, account_id := 7 }, { user_id := 2, account_id := 9 }],
    userinfo := [{ id := 1, username := "alice" }, { id := 2, username := "bob" }],
    account := [{ id := 7 }, { id := 8 }, { id := 9 }] }

/-- The serial assertion of device `SN-001`, addressed by the pivot name. -/
def kestrelAssertion : Assertion :=
  { typeName := "serial",
    headers := [("brand-id", "acme"), ("model", "kestrel"), ("serial", "SN-001"),
                ("device-key", "KEY-1")],
    body := [66, 79, 68, 89], Revision := 0 }

/-- A serial assertion for a model the catalog does not hold. -/
def heronAssertion : Assertion :=
  { typeName := "serial",
    headers := [("brand-id", "acme"), ("model", "heron"), ("serial", "SN-002"),
                ("device-key", "KEY-1")],
    body := [], Revision := 0 }

/-- A serial assertion for the model with the inactive key. -/
def ospreyAssertion : Assertion :=
  { typeName := "serial",
    headers := [("brand-id", "acme"), ("model", "osprey"), ("serial", "SN-003"),
                ("device-key", "KEY-1")],
    body := [], Revision := 0 }

/-- An environment over the catalog: one valid API key, a codec that knows
three payloads, one device key, a signing authority that prepends a marker
byte to the body, and storage that does not fail. -/
def testEnviron : Environ where
  checkAPIKey := fun k => if k = "ValidAPIKey" then none else some "unauthorized"
  Decode := fun d =>
    if d = [1] then .ok kestrelAssertion
    else if d = [2] then .ok heronAssertion
    else if d = [3] then .ok ospreyAssertion
    else .error "assertion content/signature separator not found"
  FindModel := catalog.FindModel
  decodePublicKey := fun k => if k = "KEY-1" then .ok ⟨"fingerprint-1"⟩ else .error "bad key"
  SignAssertion := fun _ _ body _ _ _ => .ok (83 :: body)
  checkFault := fun _ _ => none
  createFault := fun _ _ => none

/-- The environment with a signing authority that fails. -/
def failingSigner : Environ :=
  { testEnviron with SignAssertion := fun _ _ _ _ _ _ => .error "cannot sign" }

/-- The environment with a signing log that cannot be written. -/
def failingLog : Environ :=
  { testEnviron with createFault := fun _ _ => some "database is unavailable" }

/-- The environment with a signing log that cannot be read for the duplicate
check. -/
def failingCheck : Environ :=
  { testEnviron with checkFault := fun _ _ => some "database is unavailable" }

/-- The environment with a signing log that can be read for the duplicate
check while it is empty and cannot be read once it holds an entry. -/
def flakyCheck : Environ :=
  { testEnviron with
    checkFault := fun log _ => if log.isEmpty then none else some "database is unavailable" }

/-- The signing request of device `SN-001`. -/
def kestrelRequest : Request := ⟨"ValidAPIKey", some (.ok [1])⟩

/-- A signing request naming an unknown model. -/
def heronRequest : Request := ⟨"ValidAPIKey", some (.ok [2])⟩

/-- A signing request resolving to the model with the inactive key. -/
def ospreyRequest : Request := ⟨"ValidAPIKey", some (.ok [3])⟩

/-- The signing-log entry of device `SN-001`. -/
def kestrelEntry : SigningLog := ⟨"acme", "kestrel", "SN-001", "fingerprint-1"⟩

/-- The sub-store mapping the catalog holds, as `GetSubstore` returns it. -/
def retailSubstore : Substore :=
  { ID := 1, AccountID := 7, FromModelID := 1, FromModel := falcon, Store := "retail",
    SerialNumber := "SN-001", ModelName := "kestrel" }

/-- A second mapping of the same device into the same store of the same
account, under another pivot name. -/
def repeatedSubstore : Substore :=
  { ID := 0, AccountID := 7, FromModelID := 1, FromModel := default, Store := "retail",
    SerialNumber := "SN-001", ModelName := "harrier" }

/-- A mapping of the same device into the `outlet` store of account 8. -/
def outletSubstore : Substore :=
  { ID := 0, AccountID := 8, FromModelID := 1, FromModel := default, Store := "outlet",
    SerialNumber := "SN-001", ModelName := "merlin" }

/-- A second mapping of the same device into the same store of the same
account, under a pivot name of 201 characters. -/
def overlongSubstore : Substore :=
  { ID := 0, AccountID := 7, FromModelID := 1, FromModel := default, Store := "retail",
    SerialNumber := "SN-001", ModelName := String.mk (List.replicate 201 'x') }

/-- A storage that does not fail and hands out the identifier 2. -/
def healthyStorage : ExecContext := { fault := none, nextID := 2 }

/-! ## Properties of the signing handler -/

/-- Every run of `SignHandler` is a rejection before signing, a failure of the
signing authority, a failure of the log write, or a success. -/
theorem SignHandler_cases (env : Environ) (log : List SigningLog) (r : Request) :
    ((SignHandler env log r).log = log ∧ (SignHandler env log r).response.Success = false ∧
      (SignHandler env log r).response.Signature = [] ∧
      (∀ c ∈ (SignHandler env log r).calls, c.isSign = false ∧ c.isCreate = false) ∧
      ¬ ∃ data a m pk, Checked env log r data a m pk) ∨
    (∃ data a m pk, Checked env log r data a m pk ∧
      ((∃ err, env.SignAssertion SerialType a.headers a.body m.AuthorityID m.KeyID m.SealedKey = .error err ∧
          SignHandler env log r = ⟨StatusInternalServerError,
            formatSignResponse false "error-signing-assertions" "" err [], log,
            checkCalls r data a ++ [.checkForDuplicate (signingLogOf a pk), signCallOf a m]⟩) ∨
       (∃ sig err, env.SignAssertion SerialType a.headers a.body m.AuthorityID m.KeyID m.SealedKey = .ok sig ∧
          env.createFault log (signingLogOf a pk) = some err ∧
          SignHandler env log r = ⟨StatusInternalServerError,
            formatSignResponse false "error-signing-assertions" "" err [], log,
            checkCalls r data a ++ [.checkForDuplicate (signingLogOf a pk), signCallOf a m,
              .createSigningLog (signingLogOf a pk)]⟩) ∨
       (∃ sig, env.SignAssertion SerialType a.headers a.body m.AuthorityID m.KeyID m.SealedKey = .ok sig ∧
          env.createFault log (signingLogOf a pk) = none ∧
          SignHandler env log r = ⟨StatusOK, formatSignResponse true "" "" "" sig,
            log ++ [signingLogOf a pk],
            checkCalls r data a ++ [.checkForDuplicate (signingLogOf a pk), signCallOf a m,
              .createSigningLog (signingLogOf a pk)]⟩))) := by
  cases hkey : env.checkAPIKey r.apiKey with
  | some e =>
    left
    simp [SignHandler, hkey, formatSignResponse, Call.isSign, Call.isCreate]
    rintro data a m pk ⟨h, -⟩
    simp [hkey] at h
  | none =>
  cases hbody : r.Body with
  | none =>
    left
    simp [SignHandler, hkey, hbody, formatSignResponse, Call.isSign, Call.isCreate]
    rintro data a m pk ⟨-, h, -⟩
    simp [hbody] at h
  | some body =>
  cases body with
  | error err =>
    left
    simp [SignHandler, hkey, hbody, formatSignResponse, Call.isSign, Call.isCreate]
    rintro data a m pk ⟨-, h, -⟩
    simp [hbody] at h
  | ok data =>
  by_cases hlen : data.length = 0
  · left
    simp [SignHandler, hkey, hbody, hlen, formatSignResponse, Call.isSign, Call.isCreate]
    rintro data' a m pk ⟨-, h, h', -⟩
    simp [hbody] at h
    subst h
    exact h' (List.length_eq_zero.mp hlen)
  cases hdec : env.Decode data with
  | error err =>
    left
    simp [SignHandler, hkey, hbody, hlen, hdec, formatSignResponse, Call.isSign, Call.isCreate]
    rintro data' a m pk ⟨-, h, -, h', -⟩
    simp [hbody] at h
    subst h
    simp [hdec] at h'
  | ok a =>
  by_cases htype : a.typeName = SerialType
  swap
  · left
    simp [SignHandler, hkey, hbody, hlen, hdec, htype, formatSignResponse, Call.isSign, Call.isCreate]
    rintro data' a' m pk ⟨-, h, -, h', h'', -⟩
    simp [hbody] at h
    subst h
    simp [hdec] at h'
    subst h'
    exact htype h''
  cases hmodel : env.FindModel (a.Header "brand-id") (a.Header "model") a.Revision with
  | error err =>
    left
    simp [SignHandler, hkey, hbody, hlen, hdec, htype, hmodel, formatSignResponse, Call.isSign,
      Call.isCreate]
    rintro data' a' m pk ⟨-, h, -, h', -, h'', -⟩
    simp [hbody] at h
    subst h
    simp [hdec] at h'
    subst h'
    simp [hmodel] at h''
  | ok m =>
  cases hactive : m.KeyActive with
  | false =>
    left
    simp [SignHandler, hkey, hbody, hlen, hdec, htype, hmodel, hactive, formatSignResponse,
      Call.isSign, Call.isCreate]
    rintro data' a' m' pk ⟨-, h, -, h', -, h'', h3, -⟩
    simp [hbody] at h
    subst h
    simp [hdec] at h'
    subst h'
    simp [hmodel] at h''
    subst h''
    simp [hactive] at h3
  | true =>
  cases hpk : env.decodePublicKey (a.Header "device-key") with
  | error err =>
    left
    simp [SignHandler, hkey, hbody, hlen, hdec, htype, hmodel, hactive, hpk, formatSignResponse,
      Call.isSign, Call.isCreate]
    rintro data' a' m' pk ⟨-, h, -, h', -, -, -, h3, -⟩
    simp [hbody] at h
    subst h
    simp [hdec] at h'
    subst h'
    simp [hpk] at h3
  | ok pk =>
  cases hdup : CheckForDuplicate env log (signingLogOf a pk) with
  | error err =>
    left
    simp only [signingLogOf] at hdup
    simp [SignHandler, hkey, hbody, hlen, hdec, htype, hmodel, hactive, hpk, hdup,
      formatSignResponse, Call.isSign, Call.isCreate]
    rintro data' a' m' pk' ⟨-, h, -, h', -, -, -, h3, h4⟩
    simp [hbody] at h
    subst h
    simp [hdec] at h'
    subst h'
    simp [hpk] at h3
    subst h3
    simp [signingLogOf, hdup] at h4
  | ok dup =>
  have hck : dup = false → Checked env log r data a m pk := fun hd =>
    ⟨hkey, hbody, fun h => hlen (by simp [h]), hdec, htype, hmodel, hactive, hpk, hd ▸ hdup⟩
  cases dup with
  | true =>
    left
    simp only [signingLogOf] at hdup
    simp [SignHandler, hkey, hbody, hlen, hdec, htype, hmodel, hactive, hpk, hdup,
      formatSignResponse, Call.isSign, Call.isCreate]
    rintro data' a' m' pk' ⟨-, h, -, h', -, -, -, h3, h4⟩
    simp [hbody] at h
    subst h
    simp [hdec] at h'
    subst h'
    simp [hpk] at h3
    subst h3
    simp [signingLogOf, hdup] at h4
  | false =>
  right
  refine ⟨data, a, m, pk, hck rfl, ?_⟩
  simp only [signingLogOf] at hdup
  cases hsign : env.SignAssertion SerialType a.headers a.body m.AuthorityID m.KeyID m.SealedKey with
  | error err =>
    left
    simp [SignHandler, hkey, hbody, hlen, hdec, htype, hmodel, hactive, hpk, hdup, hsign,
      checkCalls, signingLogOf, signCallOf]
  | ok sig =>
  right
  cases hcreate : env.createFault log (signingLogOf a pk) with
  | some err =>
    left
    simp only [signingLogOf] at hcreate
    simp [SignHandler, hkey, hbody, hlen, hdec, htype, hmodel, hactive, hpk, hdup, hsign,
      CreateSigningLog, hcreate, checkCalls, signingLogOf, signCallOf]
  | none =>
    right
    simp only [signingLogOf] at hcreate
    simp [SignHandler, hkey, hbody, hlen, hdec, htype, hmodel, hactive, hpk, hdup, hsign,
      CreateSigningLog, hcreate, checkCalls, signingLogOf, signCallOf]


/-- C1, as stated, fails: with a signing log whose duplicate check cannot be
read once the log holds an entry, the request of device `SN-001` is signed on
the empty log and its replay is not answered with the duplicate failure. -/
theorem replay_hits_storage_error : ¬ ReplayIsDuplicate flakyCheck [] kestrelRequest := by
  intro h
  have h2 := (h (by decide)).2.1
  exact absurd h2 (by decide)

/-- C1, amended: when `SignHandler` signs a request successfully against a
signing log, running it again with the identical request against the
resulting log is rejected (success=false, no signature) with no call to the
signing authority, no write to the log and the log unchanged, so the log
holds exactly one entry for the (serial number, fingerprint) pair of the
request.  The rejection is the duplicate failure (status 400, code
`error-signing-assertions`, subcode `error-duplicate`) when the duplicate
check of the replay completes, and the storage failure (status 500, code
`error-signing-assertions`, empty subcode, the storage error as message) when
that check hits a storage error. -/
theorem replay_is_rejected (env : Environ) (log : List SigningLog) (r : Request)
    (hsigned : (SignHandler env log r).response.Success = true) :
    ∃ data a pk, r.Body = some (.ok data) ∧ env.Decode data = .ok a ∧
      env.decodePublicKey (a.Header "device-key") = .ok pk ∧
      (SignHandler env log r).log = log ++ [signingLogOf a pk] ∧
      (SignHandler env (SignHandler env log r).log r).response.Success = false ∧
      (SignHandler env (SignHandler env log r).log r).response.Signature = [] ∧
      (∀ c ∈ (SignHandler env (SignHandler env log r).log r).calls,
        c.isSign = false ∧ c.isCreate = false) ∧
      (SignHandler env (SignHandler env log r).log r).log = (SignHandler env log r).log ∧
      (SignHandler env (SignHandler env log r).log r).log.countP
        (fun x => x.sameDevice (signingLogOf a pk)) = 1 ∧
      (env.checkFault (SignHandler env log r).log (signingLogOf a pk) = none →
        (SignHandler env (SignHandler env log r).log r).status = StatusBadRequest ∧
        (SignHandler env (SignHandler env log r).log r).response =
          ⟨false, "error-signing-assertions", "error-duplicate",
            "The serial number and/or device-key have already been used to sign a device",
            []⟩) ∧
      (∀ err, env.checkFault (SignHandler env log r).log (signingLogOf a pk) = some err →
        (SignHandler env (SignHandler env log r).log r).status = StatusInternalServerError ∧
        (SignHandler env (SignHandler env log r).log r).response =
          ⟨false, "error-signing-assertions", "", err, []⟩) := by
  rcases SignHandler_cases env log r with hrej | ⟨data, a, m, pk, hc, hcase⟩
  · rw [hrej.2.1] at hsigned
    cases hsigned
  · rcases hcase with ⟨err, -, hout⟩ | ⟨sig, err, -, -, hout⟩ | ⟨sig, hsign, hcreate, hout⟩
    · rw [hout] at hsigned
      simp [formatSignResponse] at hsigned
    · rw [hout] at hsigned
      simp [formatSignResponse] at hsigned
    · have hlog : (SignHandler env log r).log = log ++ [signingLogOf a pk] := by rw [hout]
      rw [hlog]
      have hlen : data.length ≠ 0 := fun h => hc.nonEmpty (List.length_eq_zero.mp h)
      have hfresh := hc.fresh
      simp only [CheckForDuplicate] at hfresh
      split at hfresh
      · cases hfresh
      · simp only [Except.ok.injEq] at hfresh
        have hself : (signingLogOf a pk).sameDevice (signingLogOf a pk) = true := by
          simp [SigningLog.sameDevice]
        have hcount : log.countP (fun x => x.sameDevice (signingLogOf a pk)) = 0 := by
          rw [List.countP_eq_zero]
          intro x hx
          rw [List.any_eq_false] at hfresh
          exact hfresh x hx
        have h1 := hc.apiKey
        have h2 := hc.body
        have h3 := hc.decoded
        have h4 := hc.isSerial
        have h5 := hc.found
        have h6 := hc.active
        have h7 := hc.key
        refine ⟨data, a, pk, h2, h3, h7, rfl, ?_⟩
        cases hfault : env.checkFault (log ++ [signingLogOf a pk]) (signingLogOf a pk) with
        | some err =>
          have hdup : CheckForDuplicate env (log ++ [signingLogOf a pk]) (signingLogOf a pk)
              = .error err := by
            simp [CheckForDuplicate, hfault]
          simp only [signingLogOf] at hdup hcount hself
          refine ⟨?_, ?_, ?_, ?_, ?_, ?_, ?_⟩
          · simp [SignHandler, h1, h2, hlen, h3, h4, h5, h6, h7, hdup, signingLogOf,
              formatSignResponse]
          · simp [SignHandler, h1, h2, hlen, h3, h4, h5, h6, h7, hdup, signingLogOf,
              formatSignResponse]
          · simp [SignHandler, h1, h2, hlen, h3, h4, h5, h6, h7, hdup, signingLogOf,
              Call.isSign, Call.isCreate]
          · simp [SignHandler, h1, h2, hlen, h3, h4, h5, h6, h7, hdup, signingLogOf]
          · simp [SignHandler, h1, h2, hlen, h3, h4, h5, h6, h7, hdup, signingLogOf,
              List.countP_append, hcount, hself]
          · simp
          · intro err' herr'
            simp only [Option.some.injEq] at herr'
            subst herr'
            simp [SignHandler, h1, h2, hlen, h3, h4, h5, h6, h7, hdup, signingLogOf,
              formatSignResponse]
        | none =>
          have hdup : CheckForDuplicate env (log ++ [signingLogOf a pk]) (signingLogOf a pk)
              = .ok true := by
            simp [CheckForDuplicate, hfault, hself]
          simp only [signingLogOf] at hdup hcount hself
          refine ⟨?_, ?_, ?_, ?_, ?_, ?_, ?_⟩
          · simp [SignHandler, h1, h2, hlen, h3, h4, h5, h6, h7, hdup, signingLogOf,
              formatSignResponse]
          · simp [SignHandler, h1, h2, hlen, h3, h4, h5, h6, h7, hdup, signingLogOf,
              formatSignResponse]
          · simp [SignHandler, h1, h2, hlen, h3, h4, h5, h6, h7, hdup, signingLogOf,
              Call.isSign, Call.isCreate]
          · simp [SignHandler, h1, h2, hlen, h3, h4, h5, h6, h7, hdup, signingLogOf]
          · simp [SignHandler, h1, h2, hlen, h3, h4, h5, h6, h7, hdup, signingLogOf,
              List.countP_append, hcount, hself]
          · intro _
            simp [SignHandler, h1, h2, hlen, h3, h4, h5, h6, h7, hdup, signingLogOf,
              formatSignResponse]
          · simp

/-- The replay of the request of device `SN-001` on an empty log. -/
theorem replay_is_rejected_witness :
    (SignHandler testEnviron [] kestrelRequest).response.Success = true ∧
    ∃ data a pk, kestrelRequest.Body = some (.ok data) ∧ testEnviron.Decode data = .ok a ∧
      testEnviron.decodePublicKey (a.Header "device-key") = .ok pk ∧
      (SignHandler testEnviron [] kestrelRequest).log = [] ++ [signingLogOf a pk] ∧
      (SignHandler testEnviron (SignHandler testEnviron [] kestrelRequest).log
        kestrelRequest).response.Success = false ∧
      (SignHandler testEnviron (SignHandler testEnviron [] kestrelRequest).log
        kestrelRequest).response.Signature = [] :=
  match replay_is_rejected testEnviron [] kestrelRequest (by decide) with
  | ⟨data, a, pk, hb, hd, hk, hl, hs, hsig, _⟩ => ⟨by decide, data, a, pk, hb, hd, hk, hl, hs, hsig⟩

/-- C2: a signing request whose resolved Model has `KeyActive = false` gets
the inactive-model failure (status 400, success=false, code
`error-model-not-active`, no signature), with no call to the signing
authority, no write to the signing log and the log unchanged, whatever the
device-key, the log and the signing authority are. -/
theorem inactive_model_never_signed (env : Environ) (log : List SigningLog) (r : Request)
    (data : Bytes) (a : Assertion) (m : Model)
    (hkey : env.checkAPIKey r.apiKey = none)
    (hbody : r.Body = some (.ok data)) (hdata : data ≠ [])
    (hdec : env.Decode data = .ok a) (htype : a.typeName = SerialType)
    (hmodel : env.FindModel (a.Header "brand-id") (a.Header "model") a.Revision = .ok m)
    (hactive : m.KeyActive = false) :
    (SignHandler env log r).status = StatusBadRequest ∧
    (SignHandler env log r).response =
      ⟨false, "error-model-not-active", "", "The model is linked with an inactive signing-key", []⟩ ∧
    (∀ c ∈ (SignHandler env log r).calls, c.isSign = false ∧ c.isCreate = false) ∧
    (SignHandler env log r).log = log := by
  have hlen : data.length ≠ 0 := by simpa using hdata
  simp [SignHandler, hkey, hbody, hlen, hdec, htype, hmodel, hactive, formatSignResponse,
    Call.isSign, Call.isCreate]

/-- The request resolving to `osprey`, whose key is inactive. -/
theorem inactive_model_never_signed_witness :
    osprey.KeyActive = false ∧
    (SignHandler testEnviron [kestrelEntry] ospreyRequest).response.ErrorCode = "error-model-not-active" ∧
    (SignHandler testEnviron [kestrelEntry] ospreyRequest).log = [kestrelEntry] :=
  have h := inactive_model_never_signed testEnviron [kestrelEntry] ospreyRequest [3]
    ospreyAssertion osprey rfl rfl (by decide) rfl rfl rfl rfl
  ⟨rfl, by rw [h.2.1], h.2.2.2⟩

/-- C3: a request that passes every check of `SignHandler`, with signing
and logging succeeding, gets success=true with exactly the bytes the signing
authority returned; the signing authority is called once, with the
assertion's own headers and body and the resolved Model's AuthorityID, KeyID
and SealedKey; and the log is the prior log with exactly one entry added,
whose brand, model, serial number and fingerprint are the `brand-id`, `model`
and `serial` headers and the fingerprint of the `device-key` header. -/
theorem signed_request_outcome (env : Environ) (log log' : List SigningLog) (r : Request)
    (data signed : Bytes) (a : Assertion) (m : Model) (pk : PublicKey)
    (hkey : env.checkAPIKey r.apiKey = none)
    (hbody : r.Body = some (.ok data)) (hdata : data ≠ [])
    (hdec : env.Decode data = .ok a) (htype : a.typeName = SerialType)
    (hmodel : env.FindModel (a.Header "brand-id") (a.Header "model") a.Revision = .ok m)
    (hactive : m.KeyActive = true)
    (hpk : env.decodePublicKey (a.Header "device-key") = .ok pk)
    (hdup : CheckForDuplicate env log
      ⟨a.Header "brand-id", a.Header "model", a.Header "serial", pk.Fingerprint⟩ = .ok false)
    (hsign : env.SignAssertion SerialType a.headers a.body m.AuthorityID m.KeyID m.SealedKey
      = .ok signed)
    (hlog : CreateSigningLog env log
      ⟨a.Header "brand-id", a.Header "model", a.Header "serial", pk.Fingerprint⟩ = .ok log') :
    (SignHandler env log r).response.Success = true ∧
    (SignHandler env log r).response.Signature = signed ∧
    (SignHandler env log r).calls.filter Call.isSign =
      [.signAssertion SerialType a.headers a.body m.AuthorityID m.KeyID m.SealedKey] ∧
    (SignHandler env log r).log = log' ∧
    log' = log ++ [⟨a.Header "brand-id", a.Header "model", a.Header "serial", pk.Fingerprint⟩] := by
  have hlen : data.length ≠ 0 := by simpa using hdata
  have hlog' : log' =
      log ++ [⟨a.Header "brand-id", a.Header "model", a.Header "serial", pk.Fingerprint⟩] := by
    simp only [CreateSigningLog] at hlog
    split at hlog
    · cases hlog
    · simpa using hlog.symm
  subst hlog'
  simp [SignHandler, hkey, hbody, hlen, hdec, htype, hmodel, hactive, hpk, hdup, hsign, hlog,
    formatSignResponse, Call.isSign, List.filter]

/-- The request of device `SN-001` on an empty log. -/
theorem signed_request_outcome_witness :
    (SignHandler testEnviron [] kestrelRequest).response.Signature = [83, 66, 79, 68, 89] ∧
    (SignHandler testEnviron [] kestrelRequest).calls.filter Call.isSign =
      [.signAssertion "serial" kestrelAssertion.headers [66, 79, 68, 89] "acme-retail" "key-kestrel" "sealed-kestrel"] ∧
    (SignHandler testEnviron [] kestrelRequest).log = [kestrelEntry] :=
  have h := signed_request_outcome testEnviron [] [kestrelEntry] kestrelRequest [1]
    [83, 66, 79, 68, 89] kestrelAssertion kestrel ⟨"fingerprint-1"⟩ rfl rfl (by decide) rfl rfl rfl
    rfl rfl rfl rfl rfl
  ⟨h.2.1, h.2.2.1, h.2.2.2.1⟩

/-- C4: a request that `SignHandler` rejects at a stage before signing
(invalid API key, nil, unreadable or empty body, undecodable assertion,
non-serial type, model not found, inactive key, invalid device-key,
duplicate-check error, duplicate found) makes no call to the signing
authority, leaves the signing log unchanged and gets success=false; in
particular a request naming an unknown (brand, model) gets the
model-not-found failure (status 404, code `error-model-not-found`). -/
theorem rejected_request_has_no_effect (env : Environ) (log : List SigningLog) (r : Request)
    (hrej : RejectedBeforeSigning env log r) :
    (∀ c ∈ (SignHandler env log r).calls, c.isSign = false) ∧
    (SignHandler env log r).log = log ∧
    (SignHandler env log r).response.Success = false ∧
    (∀ data a err, env.checkAPIKey r.apiKey = none → r.Body = some (.ok data) → data ≠ [] →
      env.Decode data = .ok a → a.typeName = SerialType →
      env.FindModel (a.Header "brand-id") (a.Header "model") a.Revision = .error err →
      (SignHandler env log r).status = StatusNotFound ∧
      (SignHandler env log r).response = ⟨false, "error-model-not-found", "",
        "Cannot find model with the matching brand, model and revision", []⟩) := by
  have hmain : (∀ c ∈ (SignHandler env log r).calls, c.isSign = false) ∧
      (SignHandler env log r).log = log ∧ (SignHandler env log r).response.Success = false := by
    rcases SignHandler_cases env log r with h | ⟨data, a, m, pk, hc, -⟩
    · exact ⟨fun c hcm => (h.2.2.2.1 c hcm).1, h.1, h.2.1⟩
    · exfalso
      have h1 := hc.apiKey
      have h2 := hc.body
      have h3 := hc.decoded
      have h4 := hc.isSerial
      have h5 := hc.found
      have h6 := hc.active
      have h7 := hc.key
      have h8 := hc.fresh
      have h9 := hc.nonEmpty
      cases hrej <;> simp_all
  refine ⟨hmain.1, hmain.2.1, hmain.2.2, ?_⟩
  intro data a err hkey hbody hdata hdec htype hmodel
  have hlen : data.length ≠ 0 := by simpa using hdata
  simp [SignHandler, hkey, hbody, hlen, hdec, htype, hmodel, formatSignResponse]

/-- The request naming the unknown model `heron`. -/
theorem rejected_request_has_no_effect_witness :
    RejectedBeforeSigning testEnviron [kestrelEntry] heronRequest ∧
    (∀ c ∈ (SignHandler testEnviron [kestrelEntry] heronRequest).calls, c.isSign = false) ∧
    (SignHandler testEnviron [kestrelEntry] heronRequest).log = [kestrelEntry] ∧
    (SignHandler testEnviron [kestrelEntry] heronRequest).status = StatusNotFound :=
  have hrej : RejectedBeforeSigning testEnviron [kestrelEntry] heronRequest :=
    .modelNotFound [2] heronAssertion "sql: no rows in result set" rfl rfl rfl
  have h := rejected_request_has_no_effect testEnviron [kestrelEntry] heronRequest hrej
  ⟨hrej, h.1, h.2.1,
    (h.2.2.2 [2] heronAssertion "sql: no rows in result set" rfl rfl (by decide) rfl rfl rfl).1⟩

/-- C5, as stated, fails: the (brand-id, model, serial) headers of the
request of device `SN-001` match the sub-store record that maps it to the
pivot name `kestrel`, whose originating Model is `falcon`, yet `SignHandler`
signs with the key of the Model named `kestrel` that the direct lookup
finds, not with the key of `falcon`. -/
theorem substore_mapping_not_consulted :
    ¬ SignsThroughSubstore catalog testEnviron [] kestrelRequest := by
  intro h
  have hsub : catalog.GetSubstoreModel (kestrelAssertion.Header "brand-id")
      (kestrelAssertion.Header "model") (kestrelAssertion.Header "serial") =
      .ok { ID := 1, AccountID := 7, FromModelID := 1, FromModel := falcon, Store := "retail",
            SerialNumber := "SN-001", ModelName := "kestrel" } := by rfl
  have := h [1] kestrelAssertion _ rfl rfl hsub "serial" kestrelAssertion.headers
    kestrelAssertion.body "acme-retail" "key-kestrel" "sealed-kestrel" (by decide)
  exact absurd this.2.1 (by decide)

/-- C5, amended: `SignHandler` resolves the Model by the direct lookup
`FindModel(brand-id, model, revision)` alone: every call it makes to the
signing authority carries the assertion's headers and body and the
AuthorityID, KeyID and SealedKey of the Model that lookup returned, whether
or not a sub-store record matches the headers. -/
theorem signs_with_directly_found_model (env : Environ) (log : List SigningLog) (r : Request)
    (t : String) (h : Headers) (b : Bytes) (x y z : String)
    (hcall : Call.signAssertion t h b x y z ∈ (SignHandler env log r).calls) :
    ∃ data a m, r.Body = some (.ok data) ∧ env.Decode data = .ok a ∧
      env.FindModel (a.Header "brand-id") (a.Header "model") a.Revision = .ok m ∧
      Call.findModel (a.Header "brand-id") (a.Header "model") a.Revision ∈
        (SignHandler env log r).calls ∧
      t = SerialType ∧ h = a.headers ∧ b = a.body ∧
      x = m.AuthorityID ∧ y = m.KeyID ∧ z = m.SealedKey := by
  rcases SignHandler_cases env log r with hrej | ⟨data, a, m, pk, hc, hcase⟩
  · have := (hrej.2.2.2.1 _ hcall).1
    simp [Call.isSign] at this
  · refine ⟨data, a, m, hc.body, hc.decoded, hc.found, ?_, ?_⟩
    · rcases hcase with ⟨err, -, hout⟩ | ⟨sig, err, -, -, hout⟩ | ⟨sig, -, -, hout⟩ <;>
        simp [hout, checkCalls]
    · rcases hcase with ⟨err, -, hout⟩ | ⟨sig, err, -, -, hout⟩ | ⟨sig, -, -, hout⟩ <;>
        · rw [hout] at hcall
          simp [checkCalls, signCallOf] at hcall
          simp [hcall]

/-- The request of device `SN-001` is signed with the key of `kestrel`. -/
theorem signs_with_directly_found_model_witness :
    Call.signAssertion "serial" kestrelAssertion.headers kestrelAssertion.body "acme-retail"
      "key-kestrel" "sealed-kestrel" ∈ (SignHandler testEnviron [] kestrelRequest).calls ∧
    ∃ data a m, kestrelRequest.Body = some (.ok data) ∧ testEnviron.Decode data = .ok a ∧
      testEnviron.FindModel (a.Header "brand-id") (a.Header "model") a.Revision = .ok m ∧
      Call.findModel (a.Header "brand-id") (a.Header "model") a.Revision ∈
        (SignHandler testEnviron [] kestrelRequest).calls ∧
      "serial" = SerialType ∧ kestrelAssertion.headers = a.headers ∧
      kestrelAssertion.body = a.body ∧
      "acme-retail" = m.AuthorityID ∧ "key-kestrel" = m.KeyID ∧ "sealed-kestrel" = m.SealedKey :=
  ⟨by decide, signs_with_directly_found_model testEnviron [] kestrelRequest _ _ _ _ _ _ (by decide)⟩

/-! ## Properties of the sub-store resolver -/

/-- A row selected by `getSubstoreModelSQL` is a row of `substore` with the
given pivot name and serial number, joined to a Model of the given brand. -/
theorem mem_getSubstoreModelSQL (db : DB) (brand model serialNumber : String) (row : SubstoreRow)
    (h : row ∈ db.getSubstoreModelSQL brand model serialNumber) :
    row ∈ db.substore ∧ row.model_name = model ∧ row.serial_number = serialNumber ∧
    ∃ m ∈ db.model, m.ID = row.from_model_id ∧ m.BrandID = brand := by
  simp only [DB.getSubstoreModelSQL, List.mem_map, List.mem_filter, List.mem_flatMap,
    Bool.and_eq_true, beq_iff_eq] at h
  obtain ⟨⟨s, m⟩, ⟨⟨s', hs', m', ⟨hm', hid⟩, heq⟩, ⟨hbrand, hname⟩, hserial⟩, rfl⟩ := h
  simp only [Prod.mk.injEq] at heq
  obtain ⟨rfl, rfl⟩ := heq
  exact ⟨hs', hname, hserial, m', hm', hid, hbrand⟩

/-- C6: when `GetSubstoreModel(brand, model, serial)` succeeds on a catalog
whose Model identifiers are unique (the primary key), the Substore it returns
is a row of the table with `ModelName = model` and `SerialNumber = serial`,
and its `FromModel` is the Model record whose ID is the Substore's
`FromModelID` and whose brand is the given brand: the originating Model,
found by identifier and not by the pivot name. -/
theorem substore_model_is_originating (db : DB) (brand model serialNumber : String)
    (s : Substore) (hpk : (db.model.map Model.ID).Nodup)
    (h : db.GetSubstoreModel brand model serialNumber = .ok s) :
    s.ModelName = model ∧ s.SerialNumber = serialNumber ∧
    s.FromModel ∈ db.model ∧ s.FromModel.ID = s.FromModelID ∧ s.FromModel.BrandID = brand ∧
    ∃ row ∈ db.substore, s = { row.scan with FromModel := s.FromModel } := by
  unfold DB.GetSubstoreModel at h
  split at h
  · cases h
  · rename_i row rest hrows
    have hrow : row ∈ db.getSubstoreModelSQL brand model serialNumber := by
      rw [hrows]
      exact List.mem_cons_self _ _
    obtain ⟨hsub, hname, hserial, m, hm, hid, hbrand⟩ :=
      mem_getSubstoreModelSQL db brand model serialNumber row hrow
    simp only at h
    split at h
    · cases h
    · rename_i fromModel hget
      simp only [Except.ok.injEq] at h
      subst h
      unfold DB.getModel at hget
      split at hget
      · rename_i m' hfind
        simp only [Except.ok.injEq] at hget
        subst hget
        have hm' : m' ∈ db.model := List.mem_of_find?_eq_some hfind
        have hid' : m'.ID = row.from_model_id := by
          have := List.find?_some hfind
          simpa [SubstoreRow.scan] using this
        have heq : m' = m :=
          List.inj_on_of_nodup_map hpk hm' hm (hid'.trans hid.symm)
        subst heq
        exact ⟨hname, hserial, hm', hid', hbrand, row, hsub, rfl⟩
      · cases hget

/-- The pivot name `kestrel` of device `SN-001` resolves to `falcon`, though
the catalog also holds a Model named `kestrel`. -/
theorem substore_model_is_originating_witness :
    (catalog.model.map Model.ID).Nodup ∧
    catalog.GetSubstoreModel "acme" "kestrel" "SN-001" =
      .ok { ID := 1, AccountID := 7, FromModelID := 1, FromModel := falcon, Store := "retail",
            SerialNumber := "SN-001", ModelName := "kestrel" } ∧
    falcon ∈ catalog.model ∧ falcon.ID = 1 ∧ falcon.BrandID = "acme" :=
  have h := substore_model_is_originating catalog "acme" "kestrel" "SN-001"
    { ID := 1, AccountID := 7, FromModelID := 1, FromModel := falcon, Store := "retail",
      SerialNumber := "SN-001", ModelName := "kestrel" } (by decide) rfl
  ⟨by decide, rfl, h.2.2.1, h.2.2.2.1, h.2.2.2.2.1⟩

/-! ## Failure handling and ordering of the signing handler -/

/-- C7: in every run of `SignHandler`, if a call to the signing authority
was made and it returns an error, then the signing log is unchanged, no
write to it is attempted and the response is a failure carrying no
signature; and a write to the signing log is attempted only as the call that
directly follows a call to the signing authority that returned
successfully. -/
theorem sign_failure_writes_no_log (env : Environ) (log : List SigningLog) (r : Request) :
    (∀ t h b x y z err, Call.signAssertion t h b x y z ∈ (SignHandler env log r).calls →
      env.SignAssertion t h b x y z = .error err →
      (SignHandler env log r).log = log ∧
      (SignHandler env log r).response.Success = false ∧
      (SignHandler env log r).response.Signature = [] ∧
      ∀ c ∈ (SignHandler env log r).calls, c.isCreate = false) ∧
    (∀ e, Call.createSigningLog e ∈ (SignHandler env log r).calls →
      ∃ before t h b x y z signed,
        (SignHandler env log r).calls =
          before ++ [Call.signAssertion t h b x y z, Call.createSigningLog e] ∧
        (∀ c ∈ before, c.isSign = false ∧ c.isCreate = false) ∧
        env.SignAssertion t h b x y z = .ok signed) := by
  rcases SignHandler_cases env log r with hrej | ⟨data, a, m, pk, hc, hcase⟩
  · refine ⟨fun t h b x y z err hcall _ => ?_, fun e hcall => ?_⟩
    · have := (hrej.2.2.2.1 _ hcall).1
      simp [Call.isSign] at this
    · have := (hrej.2.2.2.1 _ hcall).2
      simp [Call.isCreate] at this
  · rcases hcase with ⟨err, hsign, hout⟩ | ⟨sig, err, hsign, -, hout⟩ | ⟨sig, hsign, -, hout⟩
    · refine ⟨fun t h b x y z err' hcall _ => ?_, fun e hcall => ?_⟩
      · rw [hout]
        simp [formatSignResponse, checkCalls, signCallOf, Call.isCreate]
      · rw [hout] at hcall
        simp [checkCalls, signCallOf] at hcall
    · refine ⟨fun t h b x y z err' hcall herr => ?_, fun e hcall => ?_⟩
      · rw [hout] at hcall
        simp [checkCalls, signCallOf] at hcall
        obtain ⟨rfl, rfl, rfl, rfl, rfl, rfl⟩ := hcall
        rw [hsign] at herr
        cases herr
      · rw [hout] at hcall ⊢
        simp [checkCalls, signCallOf] at hcall
        subst hcall
        refine ⟨checkCalls r data a ++ [.checkForDuplicate (signingLogOf a pk)], SerialType,
          a.headers, a.body, m.AuthorityID, m.KeyID, m.SealedKey, sig, ?_, ?_, hsign⟩
        · simp [checkCalls, signCallOf]
        · simp [checkCalls, Call.isSign, Call.isCreate]
    · refine ⟨fun t h b x y z err' hcall herr => ?_, fun e hcall => ?_⟩
      · rw [hout] at hcall
        simp [checkCalls, signCallOf] at hcall
        obtain ⟨rfl, rfl, rfl, rfl, rfl, rfl⟩ := hcall
        rw [hsign] at herr
        cases herr
      · rw [hout] at hcall ⊢
        simp [checkCalls, signCallOf] at hcall
        subst hcall
        refine ⟨checkCalls r data a ++ [.checkForDuplicate (signingLogOf a pk)], SerialType,
          a.headers, a.body, m.AuthorityID, m.KeyID, m.SealedKey, sig, ?_, ?_, hsign⟩
        · simp [checkCalls, signCallOf]
        · simp [checkCalls, Call.isSign, Call.isCreate]

/-- The request of device `SN-001` with a signing authority that fails. -/
theorem sign_failure_writes_no_log_witness :
    Call.signAssertion "serial" kestrelAssertion.headers kestrelAssertion.body "acme-retail"
      "key-kestrel" "sealed-kestrel" ∈ (SignHandler failingSigner [] kestrelRequest).calls ∧
    failingSigner.SignAssertion "serial" kestrelAssertion.headers kestrelAssertion.body
      "acme-retail" "key-kestrel" "sealed-kestrel" = .error "cannot sign" ∧
    (SignHandler failingSigner [] kestrelRequest).log = [] ∧
    (SignHandler failingSigner [] kestrelRequest).response.Success = false ∧
    (SignHandler failingSigner [] kestrelRequest).response.Signature = [] :=
  have h := (sign_failure_writes_no_log failingSigner [] kestrelRequest).1 "serial"
    kestrelAssertion.headers kestrelAssertion.body "acme-retail" "key-kestrel" "sealed-kestrel"
    "cannot sign" (by decide) rfl
  ⟨by decide, rfl, h.1, h.2.1, h.2.2.1⟩

/-- C8, as stated, fails: with a signing log that cannot be written, the
request of device `SN-001` ends with a signature produced by the signing
authority and no log entry. -/
theorem signature_without_log_entry :
    ¬ SignedAndLoggedOrNeither failingLog [] kestrelRequest := by
  have hsig : signatureProduced failingLog (SignHandler failingLog [] kestrelRequest) = true := by
    decide
  have hlog : logEntryWritten [] (SignHandler failingLog [] kestrelRequest) = false := by
    decide
  rintro (⟨-, h⟩ | ⟨h, -⟩)
  · rw [hlog] at h
    cases h
  · rw [hsig] at h
    cases h

/-- C8, amended: every run of `SignHandler` ends in one of three states.
Signed and logged: the signing authority produced a signature, an entry was
written, and the response is a success carrying that signature.  Neither:
no signature was produced, the log is unchanged and the response is a
failure without signature.  Signed and discarded: the signing authority
produced a signature but the log write, the last call of the run, failed;
the log is unchanged and the response is a failure without signature.  So no
run ends with a log entry but no signature, and no signature is returned
without its log entry. -/
theorem signed_logged_or_discarded (env : Environ) (log : List SigningLog) (r : Request) :
    (signatureProduced env (SignHandler env log r) = true ∧
      logEntryWritten log (SignHandler env log r) = true ∧
      (SignHandler env log r).response.Success = true ∧
      ∃ t h b x y z, Call.signAssertion t h b x y z ∈ (SignHandler env log r).calls ∧
        env.SignAssertion t h b x y z = .ok (SignHandler env log r).response.Signature) ∨
    (signatureProduced env (SignHandler env log r) = false ∧
      logEntryWritten log (SignHandler env log r) = false ∧
      (SignHandler env log r).response.Success = false ∧
      (SignHandler env log r).response.Signature = []) ∨
    (signatureProduced env (SignHandler env log r) = true ∧
      logEntryWritten log (SignHandler env log r) = false ∧
      (SignHandler env log r).response.Success = false ∧
      (SignHandler env log r).response.Signature = [] ∧
      ∃ e err, (SignHandler env log r).calls.getLast? = some (Call.createSigningLog e) ∧
        CreateSigningLog env log e = .error err) := by
  rcases SignHandler_cases env log r with hrej | ⟨data, a, m, pk, hc, hcase⟩
  · right; left
    refine ⟨?_, ?_, hrej.2.1, hrej.2.2.1⟩
    · simp only [signatureProduced, List.any_eq_false]
      intro c hc
      have := (hrej.2.2.2.1 c hc).1
      cases c <;> simp_all [Call.isSign]
    · simp [logEntryWritten, hrej.1]
  · rcases hcase with ⟨err, hsign, hout⟩ | ⟨sig, err, hsign, hcreate, hout⟩ |
      ⟨sig, hsign, hcreate, hout⟩
    · right; left
      rw [hout]
      simp [signatureProduced, logEntryWritten, formatSignResponse, checkCalls, signCallOf,
        hsign]
    · right; right
      rw [hout]
      simp [signatureProduced, logEntryWritten, formatSignResponse, checkCalls, signCallOf,
        hsign, CreateSigningLog, hcreate]
    · left
      rw [hout]
      refine ⟨?_, ?_, ?_, SerialType, a.headers, a.body, m.AuthorityID, m.KeyID, m.SealedKey,
        ?_, ?_⟩
      · simp [signatureProduced, checkCalls, signCallOf, hsign]
      · simp [logEntryWritten]
      · simp [formatSignResponse]
      · simp [checkCalls, signCallOf]
      · simp [formatSignResponse, hsign]

/-- The handler is the single pass over the stages in their fixed order. -/
theorem SignHandler_eq_pipeline (env : Environ) (log : List SigningLog) (r : Request) :
    SignHandler env log r = pipeline env log r := by
  simp only [pipeline, stageOrder, runStages, Stage.check, Stage.calls]
  cases hkey : env.checkAPIKey r.apiKey with
  | some e => simp [SignHandler, hkey]
  | none =>
  cases hbody : r.Body with
  | none => simp [SignHandler, hkey, hbody]
  | some body =>
  cases body with
  | error err => simp [SignHandler, hkey, hbody]
  | ok data =>
  by_cases hlen : data.length = 0
  · simp [SignHandler, hkey, hbody, hlen]
  cases hdec : env.Decode data with
  | error err => simp [SignHandler, hkey, hbody, hlen, hdec]
  | ok a =>
  by_cases htype : a.typeName = SerialType
  swap
  · simp [SignHandler, hkey, hbody, hlen, hdec, htype]
  cases hmodel : env.FindModel (a.Header "brand-id") (a.Header "model") a.Revision with
  | error err => simp [SignHandler, hkey, hbody, hlen, hdec, htype, hmodel]
  | ok m =>
  cases hactive : m.KeyActive with
  | false => simp [SignHandler, hkey, hbody, hlen, hdec, htype, hmodel, hactive]
  | true =>
  cases hpk : env.decodePublicKey (a.Header "device-key") with
  | error err => simp [SignHandler, hkey, hbody, hlen, hdec, htype, hmodel, hactive, hpk]
  | ok pk =>
  cases hdup : CheckForDuplicate env log (signingLogOf a pk) with
  | error err =>
    have hdup' := hdup
    simp only [signingLogOf] at hdup'
    simp [SignHandler, hkey, hbody, hlen, hdec, htype, hmodel, hactive, hpk, hdup', signingLogOf]
  | ok dup =>
  have hdup' := hdup
  simp only [signingLogOf] at hdup'
  cases dup with
  | true =>
    simp [SignHandler, hkey, hbody, hlen, hdec, htype, hmodel, hactive, hpk, hdup', signingLogOf]
  | false =>
  cases hsign : env.SignAssertion SerialType a.headers a.body m.AuthorityID m.KeyID m.SealedKey with
  | error err =>
    simp [SignHandler, hkey, hbody, hlen, hdec, htype, hmodel, hactive, hpk, hdup', hsign,
      signingLogOf]
  | ok sig =>
  cases hcreate : CreateSigningLog env log (signingLogOf a pk) with
  | error err =>
    have hcreate' := hcreate
    simp only [signingLogOf] at hcreate'
    simp [SignHandler, hkey, hbody, hlen, hdec, htype, hmodel, hactive, hpk, hdup', hsign,
      hcreate', signingLogOf]
  | ok log' =>
    have hcreate' := hcreate
    simp only [signingLogOf] at hcreate'
    simp [SignHandler, hkey, hbody, hlen, hdec, htype, hmodel, hactive, hpk, hdup', hsign,
      hcreate', signingLogOf]

/-- The calls of a run follow the fixed order, each stage at most once. -/
theorem SignHandler_calls_in_order (env : Environ) (log : List SigningLog) (r : Request) :
    (SignHandler env log r).calls.map Call.stage <+: callOrder := by
  unfold SignHandler
  simp only [callOrder]
  repeat' split
  all_goals simp [Call.stage, List.IsPrefix]

/-- C9: `SignHandler` is the single pass over the stages in the fixed order
API key, body present, body non-empty, decode, type is `serial`, model
resolution, key active, device-key decode, duplicate check, sign, log: its
status, response, log and calls are those of the run that returns the failure
of the first stage whose check fails and the signed bytes when none fails;
and the calls it makes to its collaborators follow that order from the start,
each stage at most once, so no later stage is evaluated after a failure and
no stage is retried. -/
theorem SignHandler_follows_stage_order (env : Environ) (log : List SigningLog) (r : Request) :
    SignHandler env log r = runStages env r
      [.apiKey, .bodyPresent, .bodyNonEmpty, .decode, .typeSerial, .modelResolution, .keyActive,
       .deviceKey, .duplicateCheck, .sign, .log]
      { data := [], assertion := default, model := default, entry := default, signed := [],
        log := log } [] ∧
    (SignHandler env log r).calls.map Call.stage <+:
      [.apiKey, .bodyNonEmpty, .decode, .modelResolution, .deviceKey, .duplicateCheck, .sign,
       .log] :=
  ⟨SignHandler_eq_pipeline env log r, SignHandler_calls_in_order env log r⟩

/-- C10: after `SignHandler` the signing log is either the prior log, and
then the response has success=false, or the prior log with exactly one entry
appended, and then the response has success=true; existing entries are never
changed or removed. -/
theorem log_grows_iff_success (env : Environ) (log : List SigningLog) (r : Request) :
    ((SignHandler env log r).log = log ∧ (SignHandler env log r).response.Success = false) ∨
    (∃ e, (SignHandler env log r).log = log ++ [e] ∧
      (SignHandler env log r).response.Success = true) := by
  rcases SignHandler_cases env log r with hrej | ⟨data, a, m, pk, hc, hcase⟩
  · exact Or.inl ⟨hrej.1, hrej.2.1⟩
  · rcases hcase with ⟨err, -, hout⟩ | ⟨sig, err, -, -, hout⟩ | ⟨sig, -, -, hout⟩
    · exact Or.inl (by simp [hout, formatSignResponse])
    · exact Or.inl (by simp [hout, formatSignResponse])
    · exact Or.inr ⟨signingLogOf a pk, by simp [hout, formatSignResponse]⟩

/-! ## Typed failures and statuses of the signing handler -/

/-- A run that fails has a cause. -/
theorem failure_has_cause (env : Environ) (log : List SigningLog) (r : Request)
    (hfail : (SignHandler env log r).response.Success = false) : ∃ c, FailsFor env log r c := by
  cases hkey : env.checkAPIKey r.apiKey with
  | some e => exact ⟨_, .invalidAPIKey e hkey⟩
  | none =>
  cases hbody : r.Body with
  | none => exact ⟨_, .nilBody hkey hbody⟩
  | some body =>
  cases body with
  | error err => exact ⟨_, .unreadableBody err hkey hbody⟩
  | ok data =>
  by_cases hlen : data.length = 0
  · have hd : data = [] := List.length_eq_zero.mp hlen
    subst hd
    exact ⟨_, .emptyBody hkey hbody⟩
  have hn : data ≠ [] := fun h => hlen (by simp [h])
  cases hdec : env.Decode data with
  | error err => exact ⟨_, .undecodable data err hkey hbody hn hdec⟩
  | ok a =>
  by_cases htype : a.typeName = SerialType
  swap
  · exact ⟨_, .wrongType data a hkey hbody hn hdec htype⟩
  cases hmodel : env.FindModel (a.Header "brand-id") (a.Header "model") a.Revision with
  | error err => exact ⟨_, .modelNotFound data a err hkey hbody hn hdec htype hmodel⟩
  | ok m =>
  cases hactive : m.KeyActive with
  | false => exact ⟨_, .inactiveKey data a m hkey hbody hn hdec htype hmodel hactive⟩
  | true =>
  cases hpk : env.decodePublicKey (a.Header "device-key") with
  | error err =>
    exact ⟨_, .invalidDeviceKey data a m err hkey hbody hn hdec htype hmodel hactive hpk⟩
  | ok pk =>
  cases hdup : CheckForDuplicate env log (signingLogOf a pk) with
  | error err =>
    exact ⟨_, .duplicateCheckError data a m pk err hkey hbody hn hdec htype hmodel hactive hpk
      hdup⟩
  | ok dup =>
  cases dup with
  | true => exact ⟨_, .duplicate data a m pk hkey hbody hn hdec htype hmodel hactive hpk hdup⟩
  | false =>
  have hc : Checked env log r data a m pk :=
    ⟨hkey, hbody, hn, hdec, htype, hmodel, hactive, hpk, hdup⟩
  cases hsign : env.SignAssertion SerialType a.headers a.body m.AuthorityID m.KeyID m.SealedKey with
  | error err => exact ⟨_, .signingFailure data a m pk err hc hsign⟩
  | ok sig =>
  cases hcreate : CreateSigningLog env log (signingLogOf a pk) with
  | error err => exact ⟨_, .logWriteFailure data a m pk sig err hc hsign hcreate⟩
  | ok log' =>
    exfalso
    simp only [signingLogOf] at hdup hcreate
    simp [SignHandler, hkey, hbody, hlen, hdec, htype, hmodel, hactive, hpk, hdup, hsign,
      hcreate, formatSignResponse] at hfail

/-- The status and the response of a run that fails for a given cause. -/
theorem failsFor_outcome {env : Environ} {log : List SigningLog} {r : Request} {c : Cause}
    (h : FailsFor env log r c) :
    (SignHandler env log r).response.Success = false ∧
    (SignHandler env log r).response.Signature = [] ∧
    (c.clientCaused = true →
      ((SignHandler env log r).status = StatusBadRequest ∨
        (SignHandler env log r).status = StatusNotFound) ∧
      ¬ ((SignHandler env log r).response.ErrorCode = "error-signing-assertions" ∧
        (SignHandler env log r).response.ErrorSubcode = "")) ∧
    (c.clientCaused = false →
      (SignHandler env log r).status = StatusInternalServerError ∧
      (SignHandler env log r).response.ErrorCode = "error-signing-assertions" ∧
      (SignHandler env log r).response.ErrorSubcode = "") := by
  cases h with
  | invalidAPIKey err h => simp [SignHandler, h, formatSignResponse, Cause.clientCaused]
  | nilBody hk h => simp [SignHandler, hk, h, formatSignResponse, Cause.clientCaused]
  | unreadableBody err hk h => simp [SignHandler, hk, h, formatSignResponse, Cause.clientCaused]
  | emptyBody hk h => simp [SignHandler, hk, h, formatSignResponse, Cause.clientCaused]
  | undecodable data err hk hb hn h =>
    have hlen : data.length ≠ 0 := by simpa using hn
    simp [SignHandler, hk, hb, hlen, h, formatSignResponse, Cause.clientCaused]
  | wrongType data a hk hb hn hd h =>
    have hlen : data.length ≠ 0 := by simpa using hn
    simp [SignHandler, hk, hb, hlen, hd, h, formatSignResponse, Cause.clientCaused]
  | modelNotFound data a err hk hb hn hd ht h =>
    have hlen : data.length ≠ 0 := by simpa using hn
    simp [SignHandler, hk, hb, hlen, hd, ht, h, formatSignResponse, Cause.clientCaused]
  | inactiveKey data a m hk hb hn hd ht hm h =>
    have hlen : data.length ≠ 0 := by simpa using hn
    simp [SignHandler, hk, hb, hlen, hd, ht, hm, h, formatSignResponse, Cause.clientCaused]
  | invalidDeviceKey data a m err hk hb hn hd ht hm ha h =>
    have hlen : data.length ≠ 0 := by simpa using hn
    simp [SignHandler, hk, hb, hlen, hd, ht, hm, ha, h, formatSignResponse, Cause.clientCaused]
  | duplicate data a m pk hk hb hn hd ht hm ha hp h =>
    have hlen : data.length ≠ 0 := by simpa using hn
    simp only [signingLogOf] at h
    simp [SignHandler, hk, hb, hlen, hd, ht, hm, ha, hp, h, formatSignResponse,
      Cause.clientCaused]
  | duplicateCheckError data a m pk err hk hb hn hd ht hm ha hp h =>
    have hlen : data.length ≠ 0 := by simpa using hn
    simp only [signingLogOf] at h
    simp [SignHandler, hk, hb, hlen, hd, ht, hm, ha, hp, h, formatSignResponse,
      Cause.clientCaused]
  | signingFailure data a m pk err hc h =>
    obtain ⟨hk, hb, hn, hd, ht, hm, ha, hp, hf⟩ := hc
    have hlen : data.length ≠ 0 := by simpa using hn
    simp only [signingLogOf] at hf
    simp [SignHandler, hk, hb, hlen, hd, ht, hm, ha, hp, hf, h, formatSignResponse,
      Cause.clientCaused]
  | logWriteFailure data a m pk signed err hc hs h =>
    obtain ⟨hk, hb, hn, hd, ht, hm, ha, hp, hf⟩ := hc
    have hlen : data.length ≠ 0 := by simpa using hn
    simp only [signingLogOf] at hf h
    simp [SignHandler, hk, hb, hlen, hd, ht, hm, ha, hp, hf, hs, h, formatSignResponse,
      Cause.clientCaused]

/-- C11, as stated, fails: for the request of device `SN-001`, the run that
fails at the log write and the run that fails at the signing authority
return the same (error code, error subcode) pair. -/
theorem logging_failure_shares_code :
    ¬ LoggingFailureIsDistinct failingLog failingSigner failingCheck [] kestrelRequest := by
  intro h
  have hlog : FailsFor failingLog [] kestrelRequest .logWriteFailure :=
    .logWriteFailure [1] kestrelAssertion kestrel ⟨"fingerprint-1"⟩ [83, 66, 79, 68, 89]
      "database is unavailable" ⟨rfl, rfl, by decide, rfl, rfl, rfl, rfl, rfl, rfl⟩ rfl rfl
  have hsign : FailsFor failingSigner [] kestrelRequest .signingFailure :=
    .signingFailure [1] kestrelAssertion kestrel ⟨"fingerprint-1"⟩ "cannot sign"
      ⟨rfl, rfl, by decide, rfl, rfl, rfl, rfl, rfl, rfl⟩ rfl
  have hcheck : FailsFor failingCheck [] kestrelRequest .duplicateCheckError :=
    .duplicateCheckError [1] kestrelAssertion kestrel ⟨"fingerprint-1"⟩
      "database is unavailable" rfl rfl (by decide) rfl rfl rfl rfl rfl rfl
  exact (h hlog hsign hcheck).1 (by decide)

/-- C11, amended: the failure to write the signing log, the failure of the
signing authority and the storage error of the duplicate check end the
request with the same typed failure: status 500 and the response
success=false, code `error-signing-assertions`, empty subcode, no signature,
with the text of the underlying error as its message, the log being
unchanged; so the responses of the three differ in nothing but that message,
and are the same response when the error texts are the same.  Every failure
with a server-side cause is one of these three, and every other cause of
failure has a (code, subcode) pair different from that one. -/
theorem server_failures_share_code (env : Environ) (log : List SigningLog) (r : Request) :
    (∀ c err, FailsWithError env log r c err →
      c.clientCaused = false ∧
      (SignHandler env log r).status = StatusInternalServerError ∧
      (SignHandler env log r).response = ⟨false, "error-signing-assertions", "", err, []⟩ ∧
      (SignHandler env log r).log = log) ∧
    (∀ c, FailsFor env log r c → c.clientCaused = false → ∃ err, FailsWithError env log r c err) ∧
    (∀ c, FailsFor env log r c → c.clientCaused = true →
      (SignHandler env log r).codePair ≠ ("error-signing-assertions", "")) := by
  refine ⟨fun c err h => ?_, fun c h hc => ?_, fun c h hc heq => ?_⟩
  · cases h with
    | duplicateCheckError data a m pk err hk hb hn hd ht hm ha hp h =>
      have hlen : data.length ≠ 0 := by simpa using hn
      simp only [signingLogOf] at h
      simp [SignHandler, hk, hb, hlen, hd, ht, hm, ha, hp, h, formatSignResponse,
        Cause.clientCaused]
    | signingFailure data a m pk err hc h =>
      obtain ⟨hk, hb, hn, hd, ht, hm, ha, hp, hf⟩ := hc
      have hlen : data.length ≠ 0 := by simpa using hn
      simp only [signingLogOf] at hf
      simp [SignHandler, hk, hb, hlen, hd, ht, hm, ha, hp, hf, h, formatSignResponse,
        Cause.clientCaused]
    | logWriteFailure data a m pk signed err hc hs h =>
      obtain ⟨hk, hb, hn, hd, ht, hm, ha, hp, hf⟩ := hc
      have hlen : data.length ≠ 0 := by simpa using hn
      simp only [signingLogOf] at hf h
      simp [SignHandler, hk, hb, hlen, hd, ht, hm, ha, hp, hf, hs, h, formatSignResponse,
        Cause.clientCaused]
  · cases h with
    | duplicateCheckError data a m pk err hk hb hn hd ht hm ha hp h =>
      exact ⟨err, .duplicateCheckError data a m pk err hk hb hn hd ht hm ha hp h⟩
    | signingFailure data a m pk err hck h =>
      exact ⟨err, .signingFailure data a m pk err hck h⟩
    | logWriteFailure data a m pk signed err hck hs h =>
      exact ⟨err, .logWriteFailure data a m pk signed err hck hs h⟩
    | _ => simp [Cause.clientCaused] at hc
  · simp only [Outcome.codePair, Prod.mk.injEq] at heq
    exact ((failsFor_outcome h).2.2.1 hc).2 heq

/-- The request of device `SN-001` with a log that cannot be written and with
a log that cannot be read for the duplicate check: the same storage error
gives the same response. -/
theorem server_failures_share_code_witness :
    FailsWithError failingLog [] kestrelRequest .logWriteFailure "database is unavailable" ∧
    FailsWithError failingCheck [] kestrelRequest .duplicateCheckError
      "database is unavailable" ∧
    (SignHandler failingLog [] kestrelRequest).status = StatusInternalServerError ∧
    (SignHandler failingLog [] kestrelRequest).response =
      ⟨false, "error-signing-assertions", "", "database is unavailable", []⟩ ∧
    (SignHandler failingCheck [] kestrelRequest).response =
      (SignHandler failingLog [] kestrelRequest).response :=
  have hlog : FailsWithError failingLog [] kestrelRequest .logWriteFailure
      "database is unavailable" :=
    .logWriteFailure [1] kestrelAssertion kestrel ⟨"fingerprint-1"⟩ [83, 66, 79, 68, 89]
      "database is unavailable" ⟨rfl, rfl, by decide, rfl, rfl, rfl, rfl, rfl, rfl⟩ rfl rfl
  have hcheck : FailsWithError failingCheck [] kestrelRequest .duplicateCheckError
      "database is unavailable" :=
    .duplicateCheckError [1] kestrelAssertion kestrel ⟨"fingerprint-1"⟩
      "database is unavailable" rfl rfl (by decide) rfl rfl rfl rfl rfl rfl
  have h1 := (server_failures_share_code failingLog [] kestrelRequest).1 _ _ hlog
  have h2 := (server_failures_share_code failingCheck [] kestrelRequest).1 _ _ hcheck
  ⟨hlog, hcheck, h1.2.1, h1.2.2.1, h2.2.2.1.trans h1.2.2.1.symm⟩

/-- C12: a request that fails does so for one of the causes of failure, and
the HTTP status `SignHandler` writes classifies the cause: a client-caused
failure (invalid API key, nil, unreadable or empty body, undecodable
assertion, wrong type, model not found, inactive key, invalid device-key,
duplicate) gets a 4xx status and a server-caused failure (storage error of
the duplicate check, failure of the signing authority, failure of the log
write) gets a 5xx status. -/
theorem status_classifies_failure (env : Environ) (log : List SigningLog) (r : Request)
    (hfail : (SignHandler env log r).response.Success = false) :
    (∃ c, FailsFor env log r c) ∧
    ∀ c, FailsFor env log r c →
      (c.clientCaused = true →
        400 ≤ (SignHandler env log r).status ∧ (SignHandler env log r).status < 500) ∧
      (c.clientCaused = false →
        500 ≤ (SignHandler env log r).status ∧ (SignHandler env log r).status < 600) := by
  refine ⟨failure_has_cause env log r hfail, fun c h => ⟨fun hc => ?_, fun hc => ?_⟩⟩
  · rcases ((failsFor_outcome h).2.2.1 hc).1 with hs | hs <;>
      simp [hs, StatusBadRequest, StatusNotFound]
  · simp [((failsFor_outcome h).2.2.2 hc).1, StatusInternalServerError]

/-- The request naming the unknown model `heron` gets a 4xx status. -/
theorem status_classifies_failure_witness :
    (SignHandler testEnviron [] heronRequest).response.Success = false ∧
    FailsFor testEnviron [] heronRequest .modelNotFound ∧
    400 ≤ (SignHandler testEnviron [] heronRequest).status ∧
    (SignHandler testEnviron [] heronRequest).status < 500 :=
  have hc : FailsFor testEnviron [] heronRequest .modelNotFound :=
    .modelNotFound [2] heronAssertion "sql: no rows in result set" rfl rfl (by decide) rfl rfl rfl
  ⟨by decide, hc,
    ((status_classifies_failure testEnviron [] heronRequest (by decide)).2 _ hc).1 rfl⟩

/-! ## Properties of the sub-store manager -/

set_option maxRecDepth 8000 in
/-- The error `createSubstore` gives for the mapping with the model name of
201 characters: the generic message, with the text of the storage error. -/
theorem overlong_insert_error :
    (catalog.createSubstore healthyStorage overlongSubstore).err =
      some ("error creating the database sub-store (from model, serial-number and sub-store (" ++
        "1, SN-001, retail): pq: value too long for type character varying(200)") := by
  rfl

/-- C13, as stated, fails: the catalog maps device `SN-001` of model 1 into
the `retail` store of account 7; a new Substore with the same account, model,
store and serial number and a model name of 201 characters does not get the
readable message: the `INSERT` fails on the `varchar(200)` column before it
reaches the unique index, and the error carries the text of the storage
error. -/
theorem overlong_duplicate_gets_raw_error :
    ¬ DuplicateMappingIsReported catalog healthyStorage overlongSubstore := by
  intro h
  have hdup : ∃ row ∈ catalog.substore, row.account_id = overlongSubstore.AccountID ∧
      row.from_model_id = overlongSubstore.FromModelID ∧ row.store = overlongSubstore.Store ∧
      row.serial_number = overlongSubstore.SerialNumber := by decide
  have h1 := (h hdup).1
  rw [overlong_insert_error] at h1
  exact absurd h1 (by decide)

/-- C13, amended: when the new Substore has the (account, originating model,
store, serial number) of an existing row and the `INSERT` reaches the unique
index, that is no storage failure stops it, the two identifiers are in the
range of the `int` columns and the store, the serial number and the model
name have at most 200 characters, `createSubstore` fails with the message
`a sub-store mapping already exists for this from model, serial-number and
sub-store (<FromModelID>, <SerialNumber>, <Store>)`, which names the tuple and
holds nothing of the text of the storage error; it returns its input record
and leaves the database, the existing row included, as it was. -/
theorem createSubstore_duplicate_mapping (db : DB) (x : ExecContext) (store : Substore)
    (hfault : x.fault = none)
    (haccount : -2147483648 ≤ store.AccountID ∧ store.AccountID ≤ 2147483647)
    (hmodel : -2147483648 ≤ store.FromModelID ∧ store.FromModelID ≤ 2147483647)
    (hstore : store.Store.length ≤ 200) (hserial : store.SerialNumber.length ≤ 200)
    (hname : store.ModelName.length ≤ 200)
    (hdup : ∃ row ∈ db.substore, row.account_id = store.AccountID ∧
      row.from_model_id = store.FromModelID ∧ row.store = store.Store ∧
      row.serial_number = store.SerialNumber) :
    (db.createSubstore x store).err =
      some ("a sub-store mapping already exists for this from model, serial-number and sub-store (" ++
        toString store.FromModelID ++ ", " ++ store.SerialNumber ++ ", " ++ store.Store ++ ")") ∧
    (db.createSubstore x store).store = store ∧
    (db.createSubstore x store).db = db := by
  have hany : (db.substore.any fun row =>
      row.account_id == store.AccountID && row.from_model_id == store.FromModelID &&
      row.store == store.Store && row.serial_number == store.SerialNumber) = true := by
    obtain ⟨row, hrow, h1, h2, h3, h4⟩ := hdup
    rw [List.any_eq_true]
    exact ⟨row, hrow, by simp [h1, h2, h3, h4]⟩
  have hexec : db.execCreateSubstore x store.AccountID store.FromModelID store.Store
      store.SerialNumber store.ModelName =
      .error (.pq "unique_violation"
        "pq: duplicate key value violates unique constraint substore_idx") := by
    simp only [DB.execCreateSubstore, hfault, intColumn, varchar200, haccount, hmodel, hstore,
      hserial, hname, and_self, if_true, hany]
  simp [DB.createSubstore, hexec]

/-- The device `SN-001` is mapped a second time into the `retail` store of
account 7. -/
theorem createSubstore_duplicate_mapping_witness :
    healthyStorage.fault = none ∧
    (∃ row ∈ catalog.substore, row.account_id = repeatedSubstore.AccountID ∧
      row.from_model_id = repeatedSubstore.FromModelID ∧ row.store = repeatedSubstore.Store ∧
      row.serial_number = repeatedSubstore.SerialNumber) ∧
    (catalog.createSubstore healthyStorage repeatedSubstore).err =
      some "a sub-store mapping already exists for this from model, serial-number and sub-store (1, SN-001, retail)" ∧
    (catalog.createSubstore healthyStorage repeatedSubstore).store = repeatedSubstore ∧
    (catalog.createSubstore healthyStorage repeatedSubstore).db.substore = catalog.substore :=
  have hdup : ∃ row ∈ catalog.substore, row.account_id = repeatedSubstore.AccountID ∧
      row.from_model_id = repeatedSubstore.FromModelID ∧ row.store = repeatedSubstore.Store ∧
      row.serial_number = repeatedSubstore.SerialNumber := by decide
  have h := createSubstore_duplicate_mapping catalog healthyStorage repeatedSubstore rfl
    (by decide) (by decide) (by decide) (by decide) (by decide) hdup
  ⟨rfl, hdup, by rw [h.1]; decide, h.2.1, by rw [h.2.2]⟩

/-- A row selected by `getUserSubstoreSQL` is a row of `substore` for the
given originating model and serial number whose account is linked to the
user of the given name. -/
theorem mem_getUserSubstoreSQL (db : DB) (fromModelID : Int) (serialNumber username : String)
    (row : SubstoreRow) :
    row ∈ db.getUserSubstoreSQL fromModelID serialNumber username ↔
    row ∈ db.substore ∧ row.from_model_id = fromModelID ∧ row.serial_number = serialNumber ∧
    ∃ l ∈ db.useraccountlink, ∃ u ∈ db.userinfo,
      l.account_id = row.account_id ∧ l.user_id = u.id ∧ u.username = username := by
  simp only [DB.getUserSubstoreSQL, List.mem_map, List.mem_filter, List.mem_flatMap,
    Bool.and_eq_true, beq_iff_eq]
  constructor
  · rintro ⟨⟨s, l, u⟩, ⟨⟨s', hs', l', ⟨hl', hacc⟩, u', ⟨hu', huid⟩, heq⟩, ⟨hid, hserial⟩, hname⟩,
      rfl⟩
    simp only [Prod.mk.injEq] at heq
    obtain ⟨rfl, rfl, rfl⟩ := heq
    exact ⟨hs', hid, hserial, l', hl', u', hu', hacc.symm, huid, hname⟩
  · rintro ⟨hs, hid, hserial, l, hl, u, hu, hacc, huid, hname⟩
    exact ⟨(row, l, u), ⟨⟨row, hs, l, ⟨hl, hacc.symm⟩, u, ⟨hu, huid⟩, rfl⟩, ⟨hid, hserial⟩, hname⟩,
      rfl⟩

/-- C14: `GetSubstoreFilteredByUser` returns a Substore only when a row with
the given originating model and serial number belongs to an account that the
user of the given name is linked to, and the Substore it returns is such a
row (with its originating Model filled in), so a row of an account the user
is not a member of is never returned; when no such row exists the call
fails. -/
theorem user_filter_returns_only_member_rows (db : DB) (fromModelID : Int)
    (serialNumber username : String) :
    (∀ s, db.GetSubstoreFilteredByUser fromModelID serialNumber username = .ok s →
      ∃ row ∈ db.substore, s = { row.scan with FromModel := s.FromModel } ∧
        row.from_model_id = fromModelID ∧ row.serial_number = serialNumber ∧
        ∃ l ∈ db.useraccountlink, ∃ u ∈ db.userinfo,
          l.account_id = row.account_id ∧ l.user_id = u.id ∧ u.username = username) ∧
    ((¬ ∃ row ∈ db.substore, row.from_model_id = fromModelID ∧
        row.serial_number = serialNumber ∧
        ∃ l ∈ db.useraccountlink, ∃ u ∈ db.userinfo,
          l.account_id = row.account_id ∧ l.user_id = u.id ∧ u.username = username) →
      ∃ err, db.GetSubstoreFilteredByUser fromModelID serialNumber username = .error err) := by
  have hok : ∀ s, db.GetSubstoreFilteredByUser fromModelID serialNumber username = .ok s →
      ∃ row ∈ db.substore, s = { row.scan with FromModel := s.FromModel } ∧
        row.from_model_id = fromModelID ∧ row.serial_number = serialNumber ∧
        ∃ l ∈ db.useraccountlink, ∃ u ∈ db.userinfo,
          l.account_id = row.account_id ∧ l.user_id = u.id ∧ u.username = username := by
    intro s h
    unfold DB.GetSubstoreFilteredByUser at h
    split at h
    · cases h
    · rename_i row rest hrows
      have hrow : row ∈ db.getUserSubstoreSQL fromModelID serialNumber username := by
        rw [hrows]
        exact List.mem_cons_self _ _
      obtain ⟨hsub, hid, hserial, hlink⟩ :=
        (mem_getUserSubstoreSQL db fromModelID serialNumber username row).mp hrow
      simp only at h
      split at h
      · cases h
      · simp only [Except.ok.injEq] at h
        subst h
        exact ⟨row, hsub, rfl, hid, hserial, hlink⟩
  refine ⟨hok, fun hnone => ?_⟩
  cases hres : db.GetSubstoreFilteredByUser fromModelID serialNumber username with
  | error err => exact ⟨err, rfl⟩
  | ok s =>
    obtain ⟨row, hsub, -, hid, hserial, hlink⟩ := hok s hres
    exact absurd ⟨row, hsub, hid, hserial, hlink⟩ hnone

/-- User `alice`, linked to account 7, gets the mapping of `SN-001`; user
`bob`, linked to account 9 only, gets an error. -/
theorem user_filter_returns_only_member_rows_witness :
    catalog.GetSubstoreFilteredByUser 1 "SN-001" "alice" = .ok retailSubstore ∧
    (∃ row ∈ catalog.substore, retailSubstore = { row.scan with FromModel := falcon } ∧
      row.from_model_id = 1 ∧ row.serial_number = "SN-001" ∧
      ∃ l ∈ catalog.useraccountlink, ∃ u ∈ catalog.userinfo,
        l.account_id = row.account_id ∧ l.user_id = u.id ∧ u.username = "alice") ∧
    ∃ err, catalog.GetSubstoreFilteredByUser 1 "SN-001" "bob" = .error err :=
  have h := user_filter_returns_only_member_rows catalog 1 "SN-001" "alice"
  have hbob := user_filter_returns_only_member_rows catalog 1 "SN-001" "bob"
  ⟨rfl, h.1 retailSubstore rfl, hbob.2 (by decide)⟩

/-! ## Properties of the models list handler and of the error table -/

/-- The loop of `ModelsHandler` appends the display form of each record. -/
theorem foldl_modelForDisplay (ModelType : String) (ms : List Model) (acc : List ModelSerialize) :
    ms.foldl (fun models model => models ++ [modelForDisplay ModelType model]) acc =
      acc ++ ms.map (modelForDisplay ModelType) := by
  induction ms generalizing acc with
  | nil => simp
  | cons m rest ih => simp [List.foldl_cons, ih]

/-- C15: `ModelsHandler` returns success=true exactly when listing the
models succeeds; on success the list it returns has one entry for each Model
of the datastore, in the datastore's order, each the `modelForDisplay` of the
corresponding record, that is the record's ID, brand, name, keypair ID,
revision, authority ID, key ID and key-active flag with the model type, so
its length is the number of models; on failure success=false and the list of
models is empty. -/
theorem ModelsHandler_lists_models (ModelType : String)
    (listModels : Except String (List Model)) :
    ((ModelsHandler ModelType listModels).response.Success = true ↔
      ∃ dbModels, listModels = .ok dbModels) ∧
    (∀ dbModels, listModels = .ok dbModels →
      (ModelsHandler ModelType listModels).response.Models =
        dbModels.map (modelForDisplay ModelType) ∧
      (ModelsHandler ModelType listModels).response.Models =
        dbModels.map (fun model =>
          ({ ID := model.ID, BrandID := model.BrandID, Name := model.Name,
             TypeName := ModelType, KeypairID := model.KeypairID, Revision := model.Revision,
             AuthorityID := model.AuthorityID, KeyID := model.KeyID,
             KeyActive := model.KeyActive } : ModelSerialize)) ∧
      (ModelsHandler ModelType listModels).response.Models.length = dbModels.length) ∧
    (∀ err, listModels = .error err →
      (ModelsHandler ModelType listModels).response.Success = false ∧
      (ModelsHandler ModelType listModels).response.Models = []) := by
  cases listModels with
  | error err => simp [ModelsHandler, formatModelsResponse]
  | ok dbModels =>
    have hmap : dbModels.map (modelForDisplay ModelType) =
        dbModels.map (fun model =>
          ({ ID := model.ID, BrandID := model.BrandID, Name := model.Name,
             TypeName := ModelType, KeypairID := model.KeypairID, Revision := model.Revision,
             AuthorityID := model.AuthorityID, KeyID := model.KeyID,
             KeyActive := model.KeyActive } : ModelSerialize)) := rfl
    simp [ModelsHandler, formatModelsResponse, foldl_modelForDisplay, hmap]

/-- The three models of the catalog are listed in order, field by field; a
failing datastore gives an empty list. -/
theorem ModelsHandler_lists_models_witness :
    (ModelsHandler "device" (.ok catalog.model)).response.Success = true ∧
    (ModelsHandler "device" (.ok catalog.model)).response.Models =
      [⟨1, "acme", "falcon", "device", 10, 0, "acme", "key-falcon", true⟩,
       ⟨2, "acme", "kestrel", "device", 11, 0, "acme-retail", "key-kestrel", true⟩,
       ⟨3, "acme", "osprey", "device", 12, 0, "acme", "key-osprey", false⟩] ∧
    (ModelsHandler "device" (.ok catalog.model)).response.Models.length = 3 ∧
    (ModelsHandler "device" (.error "database is unavailable")).response.Success = false ∧
    (ModelsHandler "device" (.error "database is unavailable")).response.Models = [] :=
  have h := ModelsHandler_lists_models "device" (.ok catalog.model)
  have he := ModelsHandler_lists_models "device" (.error "database is unavailable")
  ⟨h.1.mpr ⟨_, rfl⟩, (h.2.1 _ rfl).2.1, (h.2.1 _ rfl).2.2, (he.2.2 _ rfl).1, (he.2.2 _ rfl).2⟩

/-- C17: every standard error response of the table is a well-formed
structured failure: `Success` is false, `Code` and `Message` are not empty,
and `StatusCode` is 400 for every entry except `ErrorInternal`, whose
`StatusCode` is 500. -/
theorem standard_errors_well_formed (name : String) (e : ErrorResponse)
    (h : (name, e) ∈ standardErrors) :
    e.Success = false ∧ e.Code ≠ "" ∧ e.Message ≠ "" ∧
    (name ≠ "ErrorInternal" → e.StatusCode = StatusBadRequest) ∧
    (name = "ErrorInternal" → e.StatusCode = StatusInternalServerError) := by
  have hall : ∀ p ∈ standardErrors, p.2.Success = false ∧ p.2.Code ≠ "" ∧ p.2.Message ≠ "" ∧
      (p.1 ≠ "ErrorInternal" → p.2.StatusCode = StatusBadRequest) ∧
      (p.1 = "ErrorInternal" → p.2.StatusCode = StatusInternalServerError) := by
    decide
  exact hall (name, e) h

/-- The entry `ErrorInternal` of the table. -/
theorem standard_errors_well_formed_witness :
    ("ErrorInternal", ErrorInternal) ∈ standardErrors ∧
    ErrorInternal.Success = false ∧ ErrorInternal.Code ≠ "" ∧ ErrorInternal.Message ≠ "" ∧
    ErrorInternal.StatusCode = StatusInternalServerError :=
  have hm : ("ErrorInternal", ErrorInternal) ∈ standardErrors := by decide
  have h := standard_errors_well_formed "ErrorInternal" ErrorInternal hm
  ⟨hm, h.1, h.2.1, h.2.2.1, h.2.2.2.2 rfl⟩

/-! ## The record `createSubstore` returns -/

/-- C18, the code at the failing input: the catalog maps device `SN-001` of
model 1 into the `retail` store of account 7; creating the mapping of the
same device into the `outlet` store of account 8 succeeds and adds the row,
but the Substore returned is the older `retail` mapping: its account, store
and model name are not those of the input. -/
theorem createSubstore_returns_older_mapping :
    (catalog.createSubstore healthyStorage outletSubstore).err = none ∧
    (catalog.createSubstore healthyStorage outletSubstore).db.substore =
      catalog.substore ++ [⟨2, 8, 1, "outlet", "SN-001", "merlin"⟩] ∧
    (catalog.createSubstore healthyStorage outletSubstore).store = retailSubstore ∧
    (catalog.createSubstore healthyStorage outletSubstore).store.AccountID ≠
      outletSubstore.AccountID ∧
    (catalog.createSubstore healthyStorage outletSubstore).store.Store ≠ outletSubstore.Store ∧
    (catalog.createSubstore healthyStorage outletSubstore).store.ModelName ≠
      outletSubstore.ModelName := by
  decide

end IdentityVault
